import Mathlib

/-
Verification development for the Waitlist_Dev repository.

The Python source is shallowly embedded: each relevant function becomes a
Lean definition over explicit state (the database rows it reads and writes)
and an explicit environment describing the outcomes of the external HTTP
calls it performs.  Timestamps are integers; string payload values are kept
abstract.  Floating point payload fields (mass, volume, capacity) carry no
arithmetic in the source, so they are carried as opaque integers.
-/

-- Timestamps, as in datetime comparisons (strictly ordered, no overflow).
abbrev Time := Int

namespace WaitlistEsi

/-- The closed union of exceptions raised by the ESI layer, from
src/Waitlist_Dev/waitlist/exceptions.py.  The constructor
`attributeError` stands for the raw Python AttributeError that escapes
`make_esi_call` when the 401/403 log lines dereference a `None` character;
it is not part of the EsiException hierarchy. -/
inductive EsiError where
  | esiException (status : Nat)
  | tokenAuthFailure (message : String)
  | scopeMissing (missing : Finset String)
  | forbidden (status : Nat)
  | notFound (status : Nat)
  | attributeError
deriving DecidableEq

/-- One row of the django-esi Token table (the Credential Store).
`expires` models the in-memory `.expires` attribute set by `.refresh()`. -/
structure Token where
  created : Time
  userId : Nat
  characterId : Nat
  accessToken : String
  refreshToken : String
  scopes : Finset String
  expires : Option Time
deriving DecidableEq

/-- One row of waitlist.models.EveCharacter.  The affiliation fields
(corporation / alliance) and `isMain` are written by the views and by
esi.py in src; their column declarations belong to a later revision of
models.py than the one checked in. -/
structure EveCharacter where
  userId : Nat
  characterId : Nat
  characterName : String
  accessToken : String
  refreshToken : String
  tokenExpiry : Option Time
  corporationId : Option Nat
  corporationName : Option String
  allianceId : Option Nat
  allianceName : Option String
deriving DecidableEq

/-- Outcome of one raw upstream HTTP fetch: success with a payload,
an HTTP 404, or any other failure. -/
inductive RawResult (α : Type) where
  | ok (payload : α)
  | notFound
  | err
deriving DecidableEq

/-- The fields of the `get_characters_character_id` payload that the
source reads (via `.get`, hence optional). -/
structure CharPayload where
  corporationId : Option Nat
  allianceId : Option Nat
deriving DecidableEq

/-- The single field read from corporation / alliance detail payloads. -/
structure NamePayload where
  name : Option String
deriving DecidableEq

/-- Environment for one public-profile fetch sequence: outcomes of the
character, corporation and alliance detail calls. -/
structure PublicEnv where
  charFetch : RawResult CharPayload
  corpFetch : Nat → RawResult NamePayload
  allianceFetch : Nat → RawResult NamePayload

/-- The dict returned by `get_character_public_data`, as observed through
`.get` on its four keys.  The empty dict `{}` returned on failure reads as
all-`none`. -/
structure PublicData where
  corporationId : Option Nat
  corporationName : Option String
  allianceId : Option Nat
  allianceName : Option String
deriving DecidableEq

/-- `{}` as observed through `.get` on the four affiliation keys. -/
def emptyPublicData : PublicData := ⟨none, none, none, none⟩

/-- src/Waitlist_Dev/waitlist/esi.py `get_character_public_data`:
fetches character, then corporation and alliance names.  A 404 on the
alliance call is handled as a dead alliance (name "N/A"); every other
EsiException makes the function return the empty dict. -/
def get_character_public_data (env : PublicEnv) : PublicData :=
  match env.charFetch with
  | .notFound => emptyPublicData
  | .err => emptyPublicData
  | .ok pd =>
    let corpStep : RawResult (Option String) :=
      match pd.corporationId with
      | none => .ok none
      | some cid =>
        match env.corpFetch cid with
        | .ok c => .ok c.name
        | .notFound => .notFound
        | .err => .err
    match corpStep with
    | .notFound => emptyPublicData
    | .err => emptyPublicData
    | .ok corpName =>
      let allianceStep : RawResult (Option String) :=
        match pd.allianceId with
        | none => .ok none
        | some aid =>
          match env.allianceFetch aid with
          | .ok a => .ok a.name
          | .notFound => .ok (some "N/A")
          | .err => .err
      match allianceStep with
      | .notFound => emptyPublicData
      | .err => emptyPublicData
      | .ok allianceName => ⟨pd.corporationId, corpName, pd.allianceId, allianceName⟩

/-- Outcome of one OAuth refresh handshake (`token.refresh()`):
success with the new access secret and expiry, a requests.HTTPError with
the given response status, or any other exception. -/
inductive RefreshResult where
  | ok (newAccess : String) (newExpires : Time)
  | httpError (status : Nat)
  | failure
deriving DecidableEq

/-- Environment for the token manager: outcome of the k-th refresh
handshake of the request, and the ESI outcomes of the public-profile
side effect following the k-th refresh. -/
structure OAuthEnv where
  refresh : Nat → RefreshResult
  publicFetch : Nat → PublicEnv

/-- `Token.objects.filter(user_id, character_id).order_by(minus-created).first()`:
the stored token with the greatest creation time among this identity's rows
(first listed wins ties). -/
def latestToken (store : List Token) (userId characterId : Nat) : Option Token :=
  (store.filter fun t => t.userId == userId && t.characterId == characterId).foldl
    (fun acc t =>
      match acc with
      | none => some t
      | some b => if b.created < t.created then some t else some b) none

/-- Expiry test of esi.py line 56:
`not character.token_expiry or character.token_expiry < timezone.now()`. -/
def needsRefresh (tokenExpiry : Option Time) (now : Time) : Bool :=
  match tokenExpiry with
  | none => true
  | some t => decide (t < now)

/-- `token.refresh()` persists the new access secret and expiry in place:
the matching row of the Credential Store is replaced. -/
def replaceToken (store : List Token) (oldTok newTok : Token) : List Token :=
  store.map fun t => if t = oldTok then newTok else t

/-- Result of one call to the waitlist token manager: the raised error or
returned token, the Credential Store afterwards, the (saved) character row,
and whether a refresh handshake was attempted. -/
structure TMRun where
  result : Except EsiError Token
  store : List Token
  character : EveCharacter
  refreshed : Bool

/-- Steps 3 onward of `get_refreshed_token_for_character` (esi.py lines
56-97): refresh when expired, sync the character row, overwrite the four
affiliation fields from the public-data dict, classify refresh failures
(400 is a revoked refresh secret, other HTTP statuses are EsiException,
anything else the generic EsiException 500). -/
def refreshStep (env : OAuthEnv) (k : Nat) (now : Time) (store : List Token)
    (character : EveCharacter) (token : Token) : TMRun :=
  if needsRefresh character.tokenExpiry now then
    match env.refresh k with
    | .ok newAccess newExpires =>
      let pd := get_character_public_data (env.publicFetch k)
      let token1 : Token := { token with accessToken := newAccess, expires := some newExpires }
      let character1 : EveCharacter := { character with
        accessToken := newAccess
        tokenExpiry := some newExpires
        corporationId := pd.corporationId
        corporationName := pd.corporationName
        allianceId := pd.allianceId
        allianceName := pd.allianceName }
      ⟨.ok token1, replaceToken store token token1, character1, true⟩
    | .httpError status =>
      if status = 400 then
        ⟨.error (.tokenAuthFailure "Your ESI token is invalid or has been revoked. Please log out and back in."),
          store, character, true⟩
      else
        ⟨.error (.esiException status), store, character, true⟩
    | .failure => ⟨.error (.esiException 500), store, character, true⟩
  else
    ⟨.ok token, store, character, false⟩

/-- src/Waitlist_Dev/waitlist/esi.py `get_refreshed_token_for_character`
(lines 25-97): look up the latest token (EsiTokenAuthFailure when none),
check required scopes (EsiScopeMissing carrying the missing set), then
refresh when expired.  `k` is the number of refresh handshakes this request
already performed (indexes the environment). -/
def get_refreshed_token_for_character (env : OAuthEnv) (k : Nat) (now : Time)
    (store : List Token) (character : EveCharacter)
    (requiredScopes : List String) : TMRun :=
  match latestToken store character.userId character.characterId with
  | none => ⟨.error (.tokenAuthFailure "No ESI token found for this character."),
      store, character, false⟩
  | some token =>
    if requiredScopes.isEmpty then
      refreshStep env k now store character token
    else
      let missing := requiredScopes.toFinset \ token.scopes
      if missing = ∅ then
        refreshStep env k now store character token
      else
        ⟨.error (.scopeMissing missing), store, character, false⟩

/-- Outcome of one invocation of the wrapped ESI operation, as raised by
bravado: success, 401, 403, 404, one of the 5xx statuses handled by the
source (500, 502, 504), or any other exception. -/
inductive CallOutcome (α : Type) where
  | ok (payload : α)
  | unauthorized
  | forbidden
  | notFound
  | serverError (status : Nat)
  | otherError
deriving DecidableEq

/-- Environment for the call gateway: outcome of the n-th invocation of the
wrapped operation, and the token manager environment. -/
structure GatewayEnv (α : Type) where
  call : Nat → CallOutcome α
  oauth : OAuthEnv

/-- Result of one `make_esi_call`: the payload or classified error,
how many times the wrapped operation was invoked, how many refresh
handshakes were attempted, the character row afterwards (none when the call
was unauthenticated), and the Credential Store afterwards. -/
structure GatewayRun (α : Type) where
  result : Except EsiError α
  opCalls : Nat
  refreshAttempts : Nat
  charState : Option EveCharacter
  store : List Token

/-- src/Waitlist_Dev/waitlist/esi.py `make_esi_call` (lines 102-166).
Authenticated path: ensure a valid token, invoke the operation; on 401
force the character expiry one minute into the past, save it, refresh, and
retry the original call exactly once, mapping any failure of the retry to
EsiTokenAuthFailure.  403/404/5xx/other map to their EsiException variants.
Unauthenticated path: no token handling; the 401 and 403 handlers
dereference `character.character_name` on `None` before classifying, so a
raw AttributeError escapes instead. -/
def make_esi_call {α : Type} (env : GatewayEnv α) (now : Time)
    (store : List Token) (characterOpt : Option EveCharacter)
    (requiredScopes : List String) : GatewayRun α :=
  match characterOpt with
  | none =>
    match env.call 0 with
    | .ok p => ⟨.ok p, 1, 0, none, store⟩
    | .unauthorized => ⟨.error .attributeError, 1, 0, none, store⟩
    | .forbidden => ⟨.error .attributeError, 1, 0, none, store⟩
    | .notFound => ⟨.error (.notFound 404), 1, 0, none, store⟩
    | .serverError s => ⟨.error (.esiException s), 1, 0, none, store⟩
    | .otherError => ⟨.error (.esiException 500), 1, 0, none, store⟩
  | some character =>
    let r1 := get_refreshed_token_for_character env.oauth 0 now store character requiredScopes
    let k1 := if r1.refreshed then 1 else 0
    match r1.result with
    | .error e => ⟨.error e, 0, k1, some r1.character, r1.store⟩
    | .ok _ =>
      match env.call 0 with
      | .ok p => ⟨.ok p, 1, k1, some r1.character, r1.store⟩
      | .unauthorized =>
        let forced : EveCharacter := { r1.character with tokenExpiry := some (now - 1) }
        let r2 := get_refreshed_token_for_character env.oauth k1 now r1.store forced requiredScopes
        let k2 := k1 + (if r2.refreshed then 1 else 0)
        match r2.result with
        | .error _ => ⟨.error (.tokenAuthFailure "ESI Unauthorized"), 1, k2, some r2.character, r2.store⟩
        | .ok _ =>
          match env.call 1 with
          | .ok p => ⟨.ok p, 2, k2, some r2.character, r2.store⟩
          | _ => ⟨.error (.tokenAuthFailure "ESI Unauthorized"), 2, k2, some r2.character, r2.store⟩
      | .forbidden => ⟨.error (.forbidden 403), 1, k1, some r1.character, r1.store⟩
      | .notFound => ⟨.error (.notFound 404), 1, k1, some r1.character, r1.store⟩
      | .serverError s => ⟨.error (.esiException s), 1, k1, some r1.character, r1.store⟩
      | .otherError => ⟨.error (.esiException 500), 1, k1, some r1.character, r1.store⟩

end WaitlistEsi

namespace PilotViews

open WaitlistEsi

/-- Modelled from the spec: one row of pilot.models.EveGroup.  The checked-in
models.py revision carries only `group_id`, `name` and an integer
`category_id`; the `category` reference (nullable link into the
ReferenceCategory table) and the `published` flag written by
views.py `_cache_missing_eve_types` belong to the later revision the spec
describes ("the group is still created with a null category reference"). -/
structure EveGroupRow where
  groupId : Nat
  name : String
  category : Option Nat
  published : Bool
deriving DecidableEq

/-- One row of pilot.models.EveType, with the attribute columns written by
views.py (description, mass, volume, capacity, icon_id) and the icon_url
column written by the fit parsing helpers.  Numeric payload fields carry no
arithmetic and are kept as opaque integers. -/
structure EveTypeRow where
  typeId : Nat
  name : String
  groupId : Nat
  slot : Option Int
  published : Bool
  description : Option String
  mass : Option Int
  volume : Option Int
  capacity : Option Int
  iconId : Option Nat
  iconUrl : Option String
deriving DecidableEq

/-- Modelled from the spec: the SDE tables read and written by the backfill.
`categories` is the set of imported ReferenceCategory ids (the EveCategory
model is referenced by views.py but missing from the checked-in models.py);
the backfill only reads it. -/
structure SdeDb where
  types : List EveTypeRow
  groups : List EveGroupRow
  categories : List Nat
deriving DecidableEq

/-- One entry of a type payload's `dogma_attributes` list. -/
structure DogmaAttr where
  attributeId : Nat
  value : Int
deriving DecidableEq

/-- The fields of a `get_universe_types_type_id` payload that the source
reads.  `published` folds in the source's `.get` default of True. -/
structure TypeData where
  name : String
  groupId : Nat
  dogmaAttributes : Option (List DogmaAttr)
  published : Bool
  description : Option String
  mass : Option Int
  volume : Option Int
  capacity : Option Int
  iconId : Option Nat
deriving DecidableEq

/-- The fields of a `get_universe_groups_group_id` payload that the source
reads. -/
structure GroupData where
  name : String
  categoryId : Option Nat
  published : Bool
deriving DecidableEq

/-- Environment for the backfill: outcomes of the type-detail and
group-detail fetches, by id. -/
structure BackfillEnv where
  typeFetch : Nat → RawResult TypeData
  groupFetch : Nat → RawResult GroupData

/-- Implant slot extraction (views.py lines 311-316): first dogma attribute
with id 300 wins. -/
def extractSlot (attrs : Option (List DogmaAttr)) : Option Int :=
  match attrs with
  | none => none
  | some l => (l.find? fun a => a.attributeId == 300).map (·.value)

/-- The EveType row created by views.py lines 319-330 (icon_url is not
among the passed columns, so it stays null). -/
def mkTypeRow (typeId : Nat) (td : TypeData) (groupId : Nat) : EveTypeRow :=
  ⟨typeId, td.name, groupId, extractSlot td.dogmaAttributes, td.published,
   td.description, td.mass, td.volume, td.capacity, td.iconId, none⟩

/-- One iteration of the backfill loop (views.py lines 278-335), over the
state (database, warning count).  Any fetch failure is caught and the
iteration is skipped; a declared category id absent from the imported
category rows leaves the group's category reference null and logs one
warning.  The in-memory group dict mirrors the group table within the call,
so the embedding consults the table directly. -/
def cacheOneType (env : BackfillEnv) (st : SdeDb × Nat) (typeId : Nat) : SdeDb × Nat :=
  match env.typeFetch typeId with
  | .notFound => st
  | .err => st
  | .ok td =>
    let db := st.1
    match db.groups.find? (fun g => g.groupId == td.groupId) with
    | some g => ({ db with types := db.types ++ [mkTypeRow typeId td g.groupId] }, st.2)
    | none =>
      match env.groupFetch td.groupId with
      | .notFound => st
      | .err => st
      | .ok gd =>
        let catAndWarn : Option Nat × Nat :=
          match gd.categoryId with
          | none => (none, st.2)
          | some cid => if cid ∈ db.categories then (some cid, st.2) else (none, st.2 + 1)
        let newGroup : EveGroupRow := ⟨td.groupId, gd.name, catAndWarn.1, gd.published⟩
        ({ db with groups := db.groups ++ [newGroup],
                   types := db.types ++ [mkTypeRow typeId td newGroup.groupId] },
         catAndWarn.2)

/-- src/Waitlist_Dev/pilot/views.py `_cache_missing_eve_types` (lines
246-335): compute the ids missing from the EveType table and process each
one, skipping over per-id failures.  Returns the database and the number of
category-missing warnings logged.  Python iterates the missing ids in
unspecified set order; the embedding fixes one order (`dedup`), and every
claim proved about it is insensitive to that order. -/
def cache_missing_eve_types (env : BackfillEnv) (db : SdeDb)
    (typeIdsToCheck : List Nat) : SdeDb × Nat :=
  if typeIdsToCheck.isEmpty then (db, 0)
  else
    let cached := db.types.map (·.typeId)
    let missing := typeIdsToCheck.dedup.filter fun i => !(decide (i ∈ cached))
    missing.foldl (cacheOneType env) (db, 0)

/-- The public-data block of pilot views.py `get_refreshed_token_for_character`
(lines 55-91): all fetches complete before any character field is assigned,
the whole block is wrapped in a try/except, so on any failure the character
affiliation fields keep their prior values (only a dead alliance 404 is
handled inline, as name "N/A"). -/
def pilot_public_block (env : PublicEnv) (character : EveCharacter) : EveCharacter :=
  match env.charFetch with
  | .notFound => character
  | .err => character
  | .ok pd =>
    let corpStep : RawResult (Option String) :=
      match pd.corporationId with
      | none => .ok none
      | some cid =>
        match env.corpFetch cid with
        | .ok c => .ok c.name
        | .notFound => .notFound
        | .err => .err
    match corpStep with
    | .notFound => character
    | .err => character
    | .ok corpName =>
      let allianceStep : RawResult (Option String) :=
        match pd.allianceId with
        | none => .ok none
        | some aid =>
          match env.allianceFetch aid with
          | .ok a => .ok a.name
          | .notFound => .ok (some "N/A")
          | .err => .err
      match allianceStep with
      | .notFound => character
      | .err => character
      | .ok allianceName =>
        { character with corporationId := pd.corporationId, corporationName := corpName,
                         allianceId := pd.allianceId, allianceName := allianceName }

/-- Result of the pilot token helper: a valid token, `None` (the caller
logs the user out and redirects), or a re-raised requests.HTTPError. -/
inductive PilotTMResult where
  | token (t : Token)
  | redirect
  | raised (status : Nat)
deriving DecidableEq

/-- Result of one call to the pilot token helper, with the Credential Store
afterwards and the character row afterwards (none when it was deleted). -/
structure PilotTMRun where
  result : PilotTMResult
  store : List Token
  character : Option EveCharacter
  refreshed : Bool

/-- src/Waitlist_Dev/pilot/views.py `get_refreshed_token_for_character`
(lines 32-114): no scope check; on a 400 refresh handshake the token row
and the character row are deleted and None is returned; other HTTPError
statuses re-raise; a missing token or any other failure returns None. -/
def pilot_get_refreshed_token_for_character (env : OAuthEnv) (k : Nat) (now : Time)
    (store : List Token) (character : EveCharacter) : PilotTMRun :=
  match latestToken store character.userId character.characterId with
  | none => ⟨.redirect, store, some character, false⟩
  | some token =>
    if needsRefresh character.tokenExpiry now then
      match env.refresh k with
      | .ok newAccess newExpires =>
        let token1 : Token := { token with accessToken := newAccess, expires := some newExpires }
        let ch1 : EveCharacter := { character with accessToken := newAccess, tokenExpiry := some newExpires }
        let ch2 := pilot_public_block (env.publicFetch k) ch1
        ⟨.token token1, replaceToken store token token1, some ch2, true⟩
      | .httpError status =>
        if status = 400 then ⟨.redirect, store.erase token, none, true⟩
        else ⟨.raised status, store, some character, true⟩
      | .failure => ⟨.redirect, store, some character, true⟩
    else ⟨.token token, store, some character, false⟩

/-- The snapshot row of pilot.models.PilotSnapshot: last-fetched raw
payloads per section. -/
structure Snapshot where
  skillsJson : Option String
  implantsJson : Option String
deriving DecidableEq

/-- The `?section=` request parameter of `api_refresh_pilot`:
one of all, skills, implants, public. -/
inductive Section where
  | all
  | skills
  | implants
  | pub
deriving DecidableEq

/-- `section == target or section == all`, the guards of views.py lines
377, 392 and 407. -/
def runsSection (sec target : Section) : Bool := sec == .all || sec == target

/-- The fields of a `get_characters_character_id_skills` payload the source
reads: presence of the two validated keys, the serialized form stored into
skills_json, and the referenced skill ids. -/
structure SkillsPayload where
  hasSkills : Bool
  hasTotalSp : Bool
  dumped : String
  skillIds : List Nat
deriving DecidableEq

/-- A `get_characters_character_id_implants` payload: whether it is a list,
its serialized form, and the implant type ids it contains. -/
structure ImplantsPayload where
  isList : Bool
  dumped : String
  ids : List Nat
deriving DecidableEq

/-- Environment for one `api_refresh_pilot` call after a successful token
step: outcomes of the section fetches and of the backfill fetches. -/
structure PilotApiEnv where
  skillsFetch : RawResult SkillsPayload
  implantsFetch : RawResult ImplantsPayload
  publicFetch : PublicEnv
  backfill : BackfillEnv

/-- The HTTP response of `api_refresh_pilot`:
`{"status": "success", "section": sec}` or an error JSON with its status. -/
inductive ApiResponse where
  | success (sec : Section)
  | error (status : Nat)
deriving DecidableEq

/-- Result of one `api_refresh_pilot` call: the JSON response and the
persisted state (snapshot row, character row, SDE tables, warning count). -/
structure ApiRun where
  response : ApiResponse
  snapshot : Snapshot
  character : EveCharacter
  sde : SdeDb
  warnings : Nat

/-- The public-data section of `api_refresh_pilot` (views.py lines
407-440).  Unlike the pilot token helper, failures here are not swallowed:
any non-alliance 404 or other error propagates to the view's outer
try/except. -/
def api_public_step (env : PublicEnv) (character : EveCharacter) :
    Except Unit EveCharacter :=
  match env.charFetch with
  | .notFound => .error ()
  | .err => .error ()
  | .ok pd =>
    let corpStep : RawResult (Option String) :=
      match pd.corporationId with
      | none => .ok none
      | some cid =>
        match env.corpFetch cid with
        | .ok c => .ok c.name
        | .notFound => .notFound
        | .err => .err
    match corpStep with
    | .notFound => .error ()
    | .err => .error ()
    | .ok corpName =>
      let allianceStep : RawResult (Option String) :=
        match pd.allianceId with
        | none => .ok none
        | some aid =>
          match env.allianceFetch aid with
          | .ok a => .ok a.name
          | .notFound => .ok (some "N/A")
          | .err => .err
      match allianceStep with
      | .notFound => .error ()
      | .err => .error ()
      | .ok allianceName =>
        .ok { character with corporationId := pd.corporationId, corporationName := corpName,
                             allianceId := pd.allianceId, allianceName := allianceName }

/-- src/Waitlist_Dev/pilot/views.py `api_refresh_pilot`, lines 370-457
(the body after a successful token step).  `get_or_create` persists a blank
snapshot row when none exists; the requested sections then run inside one
try/except: section payloads are validated and written to the in-memory
snapshot, and `snapshot.save()` runs only after every requested section
succeeded.  Any failure jumps to the handler, which returns a 500 error
JSON, losing the unsaved in-memory snapshot updates.  On success the
accumulated type ids are passed to the backfill and a success JSON naming
the requested section is returned. -/
def api_refresh_pilot_body (env : PilotApiEnv) (sec : Section)
    (dbSnap : Option Snapshot) (character : EveCharacter) (sde : SdeDb) : ApiRun :=
  let snap0 := dbSnap.getD ⟨none, none⟩
  let skillsStep : Except Unit (Snapshot × Finset Nat) :=
    if runsSection sec .skills then
      match env.skillsFetch with
      | .ok p =>
        if p.hasSkills && p.hasTotalSp then
          .ok ({ snap0 with skillsJson := some p.dumped }, p.skillIds.toFinset)
        else .error ()
      | .notFound => .error ()
      | .err => .error ()
    else .ok (snap0, ∅)
  match skillsStep with
  | .error _ => ⟨.error 500, snap0, character, sde, 0⟩
  | .ok (snap1, ids1) =>
    let implantsStep : Except Unit (Snapshot × Finset Nat) :=
      if runsSection sec .implants then
        match env.implantsFetch with
        | .ok p =>
          if p.isList then
            .ok ({ snap1 with implantsJson := some p.dumped }, ids1 ∪ p.ids.toFinset)
          else .error ()
        | .notFound => .error ()
        | .err => .error ()
      else .ok (snap1, ids1)
    match implantsStep with
    | .error _ => ⟨.error 500, snap0, character, sde, 0⟩
    | .ok (snap2, ids2) =>
      let publicStep : Except Unit EveCharacter :=
        if runsSection sec .pub then api_public_step env.publicFetch character
        else .ok character
      match publicStep with
      | .error _ => ⟨.error 500, snap0, character, sde, 0⟩
      | .ok character2 =>
        let run := if ids2 = ∅ then (sde, 0)
                   else cache_missing_eve_types env.backfill sde (ids2.sort (· ≤ ·))
        ⟨.success sec, snap2, character2, run.1, run.2⟩

end PilotViews

namespace FitParser

open WaitlistEsi PilotViews

/-- Environment for the fit-parsing cache helpers: outcome of the
name-to-id resolution (`post_universe_ids`, whose payload yields the first
hit among inventory_types, categories, groups, or nothing), and of the
detail fetches. -/
structure FitEnv where
  idLookup : String → RawResult (Option Nat)
  typeFetch : Nat → RawResult TypeData
  groupFetch : Nat → RawResult GroupData

/-- `group.save()` after updating the row found or created by
get_or_create: replace by primary key. -/
def replaceGroup (groups : List EveGroupRow) (gid : Nat) (g1 : EveGroupRow) :
    List EveGroupRow :=
  groups.map fun g => if g.groupId == gid then g1 else g

/-- `type_obj.delete()`: remove the row by primary key. -/
def removeType (types : List EveTypeRow) (tid : Nat) : List EveTypeRow :=
  types.filter fun t => !(t.typeId == tid)

/-- `type_obj.save()` after updating the row: replace by primary key. -/
def replaceTypeRow (types : List EveTypeRow) (tid : Nat) (t1 : EveTypeRow) :
    List EveTypeRow :=
  types.map fun t => if t.typeId == tid then t1 else t

/-- src/Waitlist_Dev/waitlist/fit_parser.py `get_or_cache_eve_group` (lines
17-44): get_or_create the group with a temporary name, then fetch the real
name from ESI.  When the detail fetch fails the function returns None, but
the placeholder group row it just created persists.  The category and
published columns take their defaults (null / True). -/
def get_or_cache_eve_group (env : FitEnv) (db : SdeDb) (gid : Nat) :
    Option EveGroupRow × SdeDb :=
  match db.groups.find? (fun g => g.groupId == gid) with
  | some g => (some g, db)
  | none =>
    let g0 : EveGroupRow := ⟨gid, "...Fetching from ESI...", none, true⟩
    let db1 : SdeDb := { db with groups := db.groups ++ [g0] }
    match env.groupFetch gid with
    | .ok gd =>
      let g1 : EveGroupRow := { g0 with name := gd.name }
      (some g1, { db1 with groups := replaceGroup db1.groups gid g1 })
    | .notFound => (none, db1)
    | .err => (none, db1)

/-- The eager evaluation of the get_or_create defaults dict of fit_parser
line 86: `get_or_cache_eve_group(0) or EveGroup.objects.get_or_create(
group_id=0, defaults name Unknown)[0]`.  The fallback reuses the row that
get_or_cache_eve_group already created, or creates the Unknown row. -/
def defaultGroup (env : FitEnv) (db : SdeDb) : EveGroupRow × SdeDb :=
  match get_or_cache_eve_group env db 0 with
  | (some g, db1) => (g, db1)
  | (none, db1) =>
    match db1.groups.find? (fun g => g.groupId == 0) with
    | some g => (g, db1)
    | none =>
      (⟨0, "Unknown", none, true⟩,
       { db1 with groups := db1.groups ++ [⟨0, "Unknown", none, true⟩] })

/-- The placeholder row updated with the real payload data (fit_parser
lines 114-119): canonical name, real group, slot, icon URL. -/
def fillRow (ph : EveTypeRow) (td : TypeData) (g : EveGroupRow) (tid : Nat) : EveTypeRow :=
  { ph with
    name := td.name
    groupId := g.groupId
    slot := extractSlot td.dogmaAttributes
    iconUrl := some ("https://images.evetech.net/types/" ++ toString tid ++ "/icon?size=32") }

/-- fit_parser lines 90-121: the just-created placeholder row is filled in
from the type detail payload; when the real group cannot be resolved the
placeholder is deleted and None returned; when the detail fetch itself
fails the function returns None with the placeholder still in the table. -/
def goct_fill (env : FitEnv) (db1 : SdeDb) (tid : Nat) (ph : EveTypeRow) :
    Option EveTypeRow × SdeDb :=
  match env.typeFetch tid with
  | .notFound => (none, db1)
  | .err => (none, db1)
  | .ok td =>
    match get_or_cache_eve_group env db1 td.groupId with
    | (none, db2) => (none, { db2 with types := removeType db2.types tid })
    | (some g, db2) =>
      (some (fillRow ph td g tid), { db2 with types := replaceTypeRow db2.types tid (fillRow ph td g tid) })

/-- The placeholder EveType row created by the get_or_create of fit_parser
lines 80-88, before the detail payload is known. -/
def mkPlaceholder (tid : Nat) (dgp : EveGroupRow) : EveTypeRow :=
  ⟨tid, "...Fetching from ESI...", dgp.groupId, none, true,
   none, none, none, none, none, none⟩

/-- src/Waitlist_Dev/waitlist/fit_parser.py `get_or_cache_eve_type` (lines
47-126): look the type up by case-insensitive name; on a miss, resolve the
name to an id via ESI, get_or_create a placeholder row (the defaults dict
eagerly resolves group 0, creating it when absent), then fill the row in
from the type detail payload via goct_fill. -/
def get_or_cache_eve_type (env : FitEnv) (db : SdeDb) (itemName : String) :
    Option EveTypeRow × SdeDb :=
  match db.types.find? (fun t => t.name.toLower == itemName.toLower) with
  | some t => (some t, db)
  | none =>
    match env.idLookup itemName with
    | .notFound => (none, db)
    | .err => (none, db)
    | .ok none => (none, db)
    | .ok (some tid) =>
      let dg := defaultGroup env db
      match dg.2.types.find? (fun t => t.typeId == tid) with
      | some t => (some t, dg.2)
      | none =>
        goct_fill env { dg.2 with types := dg.2.types ++ [mkPlaceholder tid dg.1] }
          tid (mkPlaceholder tid dg.1)

end FitParser

namespace WaitlistEsi

theorem tm_eq_refreshStep (env : OAuthEnv) (k : Nat) (now : Time) (store : List Token)
    (ch : EveCharacter) (S : List String) (token : Token)
    (hTok : latestToken store ch.userId ch.characterId = some token)
    (hScope : S.toFinset \ token.scopes = ∅) :
    get_refreshed_token_for_character env k now store ch S
      = refreshStep env k now store ch token := by
  unfold get_refreshed_token_for_character
  rw [hTok]
  cases h : S.isEmpty
  · simp [h, hScope]
  · simp [h]

theorem tm_scopeMissing (env : OAuthEnv) (k : Nat) (now : Time) (store : List Token)
    (ch : EveCharacter) (S : List String) (token : Token)
    (hTok : latestToken store ch.userId ch.characterId = some token)
    (hm : S.toFinset \ token.scopes ≠ ∅) :
    get_refreshed_token_for_character env k now store ch S
      = ⟨.error (.scopeMissing (S.toFinset \ token.scopes)), store, ch, false⟩ := by
  unfold get_refreshed_token_for_character
  rw [hTok]
  cases h : S.isEmpty
  · simp [h, hm]
  · exfalso
    apply hm
    rw [List.isEmpty_iff] at h
    subst h
    simp

theorem refreshStep_not_expired (env : OAuthEnv) (k : Nat) (now : Time) (store : List Token)
    (ch : EveCharacter) (token : Token)
    (hFresh : needsRefresh ch.tokenExpiry now = false) :
    refreshStep env k now store ch token = ⟨.ok token, store, ch, false⟩ := by
  unfold refreshStep
  rw [hFresh]
  simp

theorem refreshStep_refresh_ok (env : OAuthEnv) (k : Nat) (now : Time) (store : List Token)
    (ch : EveCharacter) (token : Token) (a : String) (e : Time)
    (hExp : needsRefresh ch.tokenExpiry now = true)
    (hOk : env.refresh k = .ok a e) :
    refreshStep env k now store ch token =
      ⟨.ok { token with accessToken := a, expires := some e },
       replaceToken store token { token with accessToken := a, expires := some e },
       { ch with
         accessToken := a
         tokenExpiry := some e
         corporationId := (get_character_public_data (env.publicFetch k)).corporationId
         corporationName := (get_character_public_data (env.publicFetch k)).corporationName
         allianceId := (get_character_public_data (env.publicFetch k)).allianceId
         allianceName := (get_character_public_data (env.publicFetch k)).allianceName },
       true⟩ := by
  unfold refreshStep
  rw [hExp, hOk]
  simp

theorem refreshStep_refresh_400 (env : OAuthEnv) (k : Nat) (now : Time) (store : List Token)
    (ch : EveCharacter) (token : Token)
    (hExp : needsRefresh ch.tokenExpiry now = true)
    (h400 : env.refresh k = .httpError 400) :
    refreshStep env k now store ch token =
      ⟨.error (.tokenAuthFailure "Your ESI token is invalid or has been revoked. Please log out and back in."),
       store, ch, true⟩ := by
  unfold refreshStep
  rw [hExp, h400]
  simp

theorem refreshStep_result_ne_scopeMissing (env : OAuthEnv) (k : Nat) (now : Time)
    (store : List Token) (ch : EveCharacter) (token : Token) (m : Finset String) :
    (refreshStep env k now store ch token).result ≠ .error (.scopeMissing m) := by
  unfold refreshStep
  cases h : needsRefresh ch.tokenExpiry now <;> simp [h]
  cases hr : env.refresh k <;> simp
  split <;> simp

theorem refreshStep_refreshed_of_expired (env : OAuthEnv) (k : Nat) (now : Time)
    (store : List Token) (ch : EveCharacter) (token : Token)
    (hExp : needsRefresh ch.tokenExpiry now = true) :
    (refreshStep env k now store ch token).refreshed = true := by
  unfold refreshStep
  rw [hExp]
  cases hr : env.refresh k <;> simp
  split <;> simp

end WaitlistEsi

namespace Fixtures

open WaitlistEsi PilotViews

/-- A public-profile environment where every fetch fails. -/
def stubPublicEnv : PublicEnv := ⟨.err, fun _ => .err, fun _ => .err⟩

/-- A stored credential for user 1, character 100, holding the skills and
implants scopes. -/
def demoToken : Token :=
  ⟨10, 1, 100, "access-old", "refresh-secret",
   {"esi-skills.read_skills.v1", "esi-clones.read_implants.v1"}, none⟩

def demoStore : List Token := [demoToken]

/-- Character 100, credential valid until t = 100. -/
def freshCharacter : EveCharacter :=
  ⟨1, 100, "Pilot One", "access-old", "refresh-secret", some 100,
   some 2000, some "OldCorp", some 3000, some "OldAlliance"⟩

/-- Same identity, credential already expired at t = 60. -/
def expiredCharacter : EveCharacter := { freshCharacter with tokenExpiry := some 50 }

/-- An OAuth authority that accepts the refresh handshake. -/
def refreshOkEnv : OAuthEnv := ⟨fun _ => .ok "access-new" 120, fun _ => stubPublicEnv⟩

/-- An OAuth authority that rejects the refresh secret with HTTP 400. -/
def refresh400Env : OAuthEnv := ⟨fun _ => .httpError 400, fun _ => stubPublicEnv⟩

end Fixtures

open WaitlistEsi PilotViews FitParser

/-- C2: for required scope list S and granted set G, the waitlist token
manager raises EsiScopeMissing carrying exactly S minus G iff that set is
non-empty; when it does, no refresh handshake was attempted and no state
changed (the check precedes the expiry check and any network call, and
fires on valid unexpired credentials too); when scopes are fine and the
credential is expired, a refresh handshake is attempted. -/
theorem c2_scope_check_precedes_everything (env : OAuthEnv) (k : Nat) (now : Time)
    (store : List Token) (ch : EveCharacter) (S : List String) (token : Token)
    (hTok : latestToken store ch.userId ch.characterId = some token) :
    ((get_refreshed_token_for_character env k now store ch S).result
        = .error (.scopeMissing (S.toFinset \ token.scopes)) ↔ S.toFinset \ token.scopes ≠ ∅)
    ∧ (S.toFinset \ token.scopes ≠ ∅ →
        (get_refreshed_token_for_character env k now store ch S).refreshed = false
        ∧ (get_refreshed_token_for_character env k now store ch S).store = store
        ∧ (get_refreshed_token_for_character env k now store ch S).character = ch)
    ∧ (S.toFinset \ token.scopes = ∅ → needsRefresh ch.tokenExpiry now = true →
        (get_refreshed_token_for_character env k now store ch S).refreshed = true) := by
  by_cases hm : S.toFinset \ token.scopes = ∅
  · rw [tm_eq_refreshStep env k now store ch S token hTok hm]
    refine ⟨?_, ?_, ?_⟩
    · simp [hm, refreshStep_result_ne_scopeMissing]
    · intro h; exact absurd hm h
    · intro _ hExp; exact refreshStep_refreshed_of_expired env k now store ch token hExp
  · rw [tm_scopeMissing env k now store ch S token hTok hm]
    exact ⟨by simp [hm], fun _ => ⟨rfl, rfl, rfl⟩, fun h => absurd h hm⟩

/-- C2 witness: a concrete valid, unexpired credential lacking the fleet
scope triggers the scope error with exactly the missing set, with no
refresh attempted. -/
theorem c2_scope_check_witness :
    (latestToken Fixtures.demoStore Fixtures.freshCharacter.userId
        Fixtures.freshCharacter.characterId = some Fixtures.demoToken)
    ∧ ((get_refreshed_token_for_character Fixtures.refreshOkEnv 0 60 Fixtures.demoStore
          Fixtures.freshCharacter ["esi-fleets.read_fleet.v1"]).result
        = .error (.scopeMissing (["esi-fleets.read_fleet.v1"].toFinset \ Fixtures.demoToken.scopes))
        ↔ ["esi-fleets.read_fleet.v1"].toFinset \ Fixtures.demoToken.scopes ≠ ∅)
    ∧ ((get_refreshed_token_for_character Fixtures.refreshOkEnv 0 60 Fixtures.demoStore
          Fixtures.freshCharacter ["esi-fleets.read_fleet.v1"]).refreshed = false) :=
  ⟨rfl,
   (c2_scope_check_precedes_everything Fixtures.refreshOkEnv 0 60 Fixtures.demoStore
      Fixtures.freshCharacter ["esi-fleets.read_fleet.v1"] Fixtures.demoToken rfl).1,
   ((c2_scope_check_precedes_everything Fixtures.refreshOkEnv 0 60 Fixtures.demoStore
      Fixtures.freshCharacter ["esi-fleets.read_fleet.v1"] Fixtures.demoToken rfl).2.1
      (by decide)).1⟩

/-- C5: for an expired credential whose refresh the authority accepts with
a future expiry, the waitlist token manager returns the credential with
only the access secret and expiry replaced: the result is literally the old
token updated in those two fields, its refresh secret unchanged, the
character row carries the new expiry (strictly later than now), and the
store change is exactly the in-place replacement of that row. -/
theorem c5_refresh_replaces_only_access_and_expiry (env : OAuthEnv) (k : Nat) (now : Time)
    (store : List Token) (ch : EveCharacter) (S : List String) (token : Token)
    (a : String) (e : Time)
    (hTok : latestToken store ch.userId ch.characterId = some token)
    (hScope : S.toFinset \ token.scopes = ∅)
    (hExp : needsRefresh ch.tokenExpiry now = true)
    (hOk : env.refresh k = .ok a e)
    (hFuture : now < e) :
    (get_refreshed_token_for_character env k now store ch S).result
        = .ok { token with accessToken := a, expires := some e }
    ∧ (get_refreshed_token_for_character env k now store ch S).character.tokenExpiry = some e
    ∧ now < e
    ∧ (Token.refreshToken { token with accessToken := a, expires := some e })
        = token.refreshToken
    ∧ (get_refreshed_token_for_character env k now store ch S).store
        = replaceToken store token { token with accessToken := a, expires := some e } := by
  rw [tm_eq_refreshStep env k now store ch S token hTok hScope,
      refreshStep_refresh_ok env k now store ch token a e hExp hOk]
  exact ⟨rfl, rfl, hFuture, rfl, rfl⟩

/-- C5 witness: concrete expired credential, authority grants a new access
secret valid until 120 at now = 60. -/
theorem c5_refresh_witness :
    (needsRefresh Fixtures.expiredCharacter.tokenExpiry 60 = true)
    ∧ ((60 : Time) < 120)
    ∧ ((get_refreshed_token_for_character Fixtures.refreshOkEnv 0 60 Fixtures.demoStore
          Fixtures.expiredCharacter []).result
        = .ok { Fixtures.demoToken with accessToken := "access-new", expires := some 120 })
    ∧ ((get_refreshed_token_for_character Fixtures.refreshOkEnv 0 60 Fixtures.demoStore
          Fixtures.expiredCharacter []).character.tokenExpiry = some 120) :=
  ⟨by decide, by decide,
   (c5_refresh_replaces_only_access_and_expiry Fixtures.refreshOkEnv 0 60 Fixtures.demoStore
      Fixtures.expiredCharacter [] Fixtures.demoToken "access-new" 120 rfl (by decide)
      (by decide) rfl (by decide)).1,
   (c5_refresh_replaces_only_access_and_expiry Fixtures.refreshOkEnv 0 60 Fixtures.demoStore
      Fixtures.expiredCharacter [] Fixtures.demoToken "access-new" 120 rfl (by decide)
      (by decide) rfl (by decide)).2.1⟩

/-- C6 counterexample: with no stored credential at all, the waitlist token
manager raises EsiTokenAuthFailure — the very class the spec reserves for
fatal auth failures — not a distinct CredentialNotFound error. -/
theorem c6_counterexample :
    (get_refreshed_token_for_character Fixtures.refreshOkEnv 0 60 []
        Fixtures.freshCharacter ["esi-skills.read_skills.v1"]).result
      = .error (.tokenAuthFailure "No ESI token found for this character.") := rfl

/-- C6 amended: when no credential exists for the identity, the waitlist
token manager fails with EsiTokenAuthFailure carrying the no-token message;
the code has no separate CredentialNotFound class, so callers can tell this
case from a fatal auth failure only by the message text.  No state is
touched and no refresh attempted. -/
theorem c6_no_credential_is_auth_failure (env : OAuthEnv) (k : Nat) (now : Time)
    (store : List Token) (ch : EveCharacter) (S : List String)
    (hNone : latestToken store ch.userId ch.characterId = none) :
    (get_refreshed_token_for_character env k now store ch S).result
        = .error (.tokenAuthFailure "No ESI token found for this character.")
    ∧ (get_refreshed_token_for_character env k now store ch S).store = store
    ∧ (get_refreshed_token_for_character env k now store ch S).refreshed = false := by
  unfold get_refreshed_token_for_character
  rw [hNone]
  exact ⟨rfl, rfl, rfl⟩

/-- C6 witness: the amended statement at the empty store. -/
theorem c6_no_credential_witness :
    (latestToken [] Fixtures.freshCharacter.userId Fixtures.freshCharacter.characterId = none)
    ∧ (get_refreshed_token_for_character Fixtures.refreshOkEnv 0 60 []
          Fixtures.freshCharacter []).result
        = .error (.tokenAuthFailure "No ESI token found for this character.") :=
  ⟨rfl,
   (c6_no_credential_is_auth_failure Fixtures.refreshOkEnv 0 60 [] Fixtures.freshCharacter
      [] rfl).1⟩

/-- C4 counterexample: authority rejects the refresh secret with 400 at a
concrete expired credential; the waitlist token manager raises
EsiTokenAuthFailure but the Credential Store still holds the row — it is
not removed, contrary to the claim. -/
theorem c4_counterexample :
    (get_refreshed_token_for_character Fixtures.refresh400Env 0 60 Fixtures.demoStore
        Fixtures.expiredCharacter []).result
      = .error (.tokenAuthFailure "Your ESI token is invalid or has been revoked. Please log out and back in.")
    ∧ (get_refreshed_token_for_character Fixtures.refresh400Env 0 60 Fixtures.demoStore
        Fixtures.expiredCharacter []).store = [Fixtures.demoToken] := ⟨rfl, rfl⟩

/-- C4 amended: on a 400 refresh rejection the two implementations split
the claimed behavior.  The waitlist token manager raises EsiTokenAuthFailure
but removes nothing; the pilot helper deletes the token row and the
character row but raises nothing — it returns None, telling its caller to
log the user out. -/
theorem c4_refresh_rejected_split_behavior (env : OAuthEnv) (k : Nat) (now : Time)
    (store : List Token) (ch : EveCharacter) (token : Token)
    (hTok : latestToken store ch.userId ch.characterId = some token)
    (hExp : needsRefresh ch.tokenExpiry now = true)
    (h400 : env.refresh k = .httpError 400) :
    ((get_refreshed_token_for_character env k now store ch []).result
        = .error (.tokenAuthFailure "Your ESI token is invalid or has been revoked. Please log out and back in.")
      ∧ (get_refreshed_token_for_character env k now store ch []).store = store
      ∧ (get_refreshed_token_for_character env k now store ch []).character = ch)
    ∧ ((pilot_get_refreshed_token_for_character env k now store ch).result = .redirect
      ∧ (pilot_get_refreshed_token_for_character env k now store ch).store = store.erase token
      ∧ (pilot_get_refreshed_token_for_character env k now store ch).character = none) := by
  constructor
  · rw [tm_eq_refreshStep env k now store ch [] token hTok (by simp),
        refreshStep_refresh_400 env k now store ch token hExp h400]
    exact ⟨rfl, rfl, rfl⟩
  · unfold pilot_get_refreshed_token_for_character
    rw [hTok, hExp, h400]
    simp

/-- C4 witness: the amended statement at the concrete 400 scenario. -/
theorem c4_refresh_rejected_witness :
    (latestToken Fixtures.demoStore Fixtures.expiredCharacter.userId
        Fixtures.expiredCharacter.characterId = some Fixtures.demoToken)
    ∧ ((pilot_get_refreshed_token_for_character Fixtures.refresh400Env 0 60 Fixtures.demoStore
          Fixtures.expiredCharacter).result = .redirect)
    ∧ ((pilot_get_refreshed_token_for_character Fixtures.refresh400Env 0 60 Fixtures.demoStore
          Fixtures.expiredCharacter).store = Fixtures.demoStore.erase Fixtures.demoToken)
    ∧ ((pilot_get_refreshed_token_for_character Fixtures.refresh400Env 0 60 Fixtures.demoStore
          Fixtures.expiredCharacter).character = none) :=
  ⟨rfl,
   ((c4_refresh_rejected_split_behavior Fixtures.refresh400Env 0 60 Fixtures.demoStore
      Fixtures.expiredCharacter Fixtures.demoToken rfl (by decide) rfl).2).1,
   ((c4_refresh_rejected_split_behavior Fixtures.refresh400Env 0 60 Fixtures.demoStore
      Fixtures.expiredCharacter Fixtures.demoToken rfl (by decide) rfl).2).2.1,
   ((c4_refresh_rejected_split_behavior Fixtures.refresh400Env 0 60 Fixtures.demoStore
      Fixtures.expiredCharacter Fixtures.demoToken rfl (by decide) rfl).2).2.2⟩

/-- C10: when the public-profile refetch performed during a successful
refresh fails, the refresh still succeeds, but the character's four
affiliation fields are overwritten with none and saved — whatever their
prior values were — because get_character_public_data maps every failing
fetch sequence to the empty dict, whose lookups all yield none. -/
theorem c10_public_data_failure_overwrites_affiliation (env : OAuthEnv) (k : Nat)
    (now : Time) (store : List Token) (ch : EveCharacter) (S : List String)
    (token : Token) (a : String) (e : Time)
    (hTok : latestToken store ch.userId ch.characterId = some token)
    (hScope : S.toFinset \ token.scopes = ∅)
    (hExp : needsRefresh ch.tokenExpiry now = true)
    (hOk : env.refresh k = .ok a e)
    (hPub : get_character_public_data (env.publicFetch k) = emptyPublicData) :
    (∀ pe : PublicEnv, (pe.charFetch = .err ∨ pe.charFetch = .notFound) →
        get_character_public_data pe = emptyPublicData)
    ∧ (get_refreshed_token_for_character env k now store ch S).result
        = .ok { token with accessToken := a, expires := some e }
    ∧ (get_refreshed_token_for_character env k now store ch S).character.corporationId = none
    ∧ (get_refreshed_token_for_character env k now store ch S).character.corporationName = none
    ∧ (get_refreshed_token_for_character env k now store ch S).character.allianceId = none
    ∧ (get_refreshed_token_for_character env k now store ch S).character.allianceName = none := by
  refine ⟨?_, ?_⟩
  · intro pe hpe
    unfold get_character_public_data
    rcases hpe with h | h <;> rw [h]
  · rw [tm_eq_refreshStep env k now store ch S token hTok hScope,
        refreshStep_refresh_ok env k now store ch token a e hExp hOk, hPub]
    exact ⟨rfl, rfl, rfl, rfl, rfl⟩

/-- C10 witness: prior affiliation values on the character are replaced by
none when the public fetch fails during a successful refresh. -/
theorem c10_public_data_failure_witness :
    (Fixtures.expiredCharacter.corporationId = some 2000)
    ∧ (get_character_public_data (Fixtures.refreshOkEnv.publicFetch 0) = emptyPublicData)
    ∧ ((get_refreshed_token_for_character Fixtures.refreshOkEnv 0 60 Fixtures.demoStore
          Fixtures.expiredCharacter []).character.corporationId = none)
    ∧ ((get_refreshed_token_for_character Fixtures.refreshOkEnv 0 60 Fixtures.demoStore
          Fixtures.expiredCharacter []).character.allianceName = none) :=
  ⟨rfl, rfl,
   (c10_public_data_failure_overwrites_affiliation Fixtures.refreshOkEnv 0 60
      Fixtures.demoStore Fixtures.expiredCharacter [] Fixtures.demoToken "access-new" 120
      rfl (by decide) (by decide) rfl rfl).2.2.1,
   (c10_public_data_failure_overwrites_affiliation Fixtures.refreshOkEnv 0 60
      Fixtures.demoStore Fixtures.expiredCharacter [] Fixtures.demoToken "access-new" 120
      rfl (by decide) (by decide) rfl rfl).2.2.2.2.2⟩

namespace WaitlistEsi

theorem tm_fresh (env : OAuthEnv) (k : Nat) (now : Time) (store : List Token)
    (ch : EveCharacter) (S : List String) (token : Token)
    (hTok : latestToken store ch.userId ch.characterId = some token)
    (hScope : S.toFinset \ token.scopes = ∅)
    (hFresh : needsRefresh ch.tokenExpiry now = false) :
    get_refreshed_token_for_character env k now store ch S = ⟨.ok token, store, ch, false⟩ := by
  rw [tm_eq_refreshStep env k now store ch S token hTok hScope,
      refreshStep_not_expired env k now store ch token hFresh]

theorem forced_needsRefresh (now : Time) : needsRefresh (some (now - 1)) now = true := by
  simp [needsRefresh]

theorem refreshStep_error_of_not_ok (env : OAuthEnv) (k : Nat) (now : Time)
    (store : List Token) (ch : EveCharacter) (token : Token)
    (hExp : needsRefresh ch.tokenExpiry now = true)
    (hNotOk : ∀ a e, env.refresh k ≠ .ok a e) :
    ∃ err, refreshStep env k now store ch token = ⟨.error err, store, ch, true⟩ := by
  unfold refreshStep
  rw [hExp]
  cases hr : env.refresh k with
  | ok a e => exact absurd hr (hNotOk a e)
  | httpError s =>
    by_cases h4 : s = 400
    · refine ⟨.tokenAuthFailure "Your ESI token is invalid or has been revoked. Please log out and back in.", ?_⟩
      simp [h4]
    · refine ⟨.esiException s, ?_⟩
      simp [h4]
  | failure => exact ⟨.esiException 500, by simp⟩

end WaitlistEsi

/-- C3: when an authenticated call with a valid, correctly scoped and
unexpired credential receives 401 on the first attempt, the gateway
performs exactly one forced-refresh retry.  If the refresh succeeds and the
retried call succeeds, the caller gets the payload after exactly one
refresh handshake and two invocations of the wrapped operation; if the
retried call fails in any way, EsiTokenAuthFailure is propagated, still
with exactly two invocations and one refresh; if the forced refresh itself
fails, EsiTokenAuthFailure is propagated after a single invocation and a
single refresh attempt — never more retries. -/
theorem c3_gateway_401_single_retry {α : Type} (env : GatewayEnv α) (now : Time)
    (store : List Token) (ch : EveCharacter) (S : List String) (token : Token)
    (hTok : latestToken store ch.userId ch.characterId = some token)
    (hScope : S.toFinset \ token.scopes = ∅)
    (hFresh : needsRefresh ch.tokenExpiry now = false)
    (h401 : env.call 0 = .unauthorized) :
    (∀ (a : String) (e : Time) (p : α), env.oauth.refresh 0 = .ok a e → env.call 1 = .ok p →
        (make_esi_call env now store (some ch) S).result = .ok p
        ∧ (make_esi_call env now store (some ch) S).opCalls = 2
        ∧ (make_esi_call env now store (some ch) S).refreshAttempts = 1)
    ∧ (∀ (a : String) (e : Time), env.oauth.refresh 0 = .ok a e →
        (∀ p : α, env.call 1 ≠ .ok p) →
        (make_esi_call env now store (some ch) S).result
            = .error (.tokenAuthFailure "ESI Unauthorized")
        ∧ (make_esi_call env now store (some ch) S).opCalls = 2
        ∧ (make_esi_call env now store (some ch) S).refreshAttempts = 1)
    ∧ ((∀ (a : String) (e : Time), env.oauth.refresh 0 ≠ .ok a e) →
        (make_esi_call env now store (some ch) S).result
            = .error (.tokenAuthFailure "ESI Unauthorized")
        ∧ (make_esi_call env now store (some ch) S).opCalls = 1
        ∧ (make_esi_call env now store (some ch) S).refreshAttempts = 1) := by
  have hr1 := tm_fresh env.oauth 0 now store ch S token hTok hScope hFresh
  refine ⟨?_, ?_, ?_⟩
  · intro a e p hOk hCall1
    have hr2 := tm_eq_refreshStep env.oauth 0 now store
      { ch with tokenExpiry := some (now - 1) } S token hTok hScope
    rw [refreshStep_refresh_ok env.oauth 0 now store
      { ch with tokenExpiry := some (now - 1) } token a e (forced_needsRefresh now) hOk] at hr2
    simp [make_esi_call, hr1, h401, hr2, hCall1]
  · intro a e hOk hCall1
    have hr2 := tm_eq_refreshStep env.oauth 0 now store
      { ch with tokenExpiry := some (now - 1) } S token hTok hScope
    rw [refreshStep_refresh_ok env.oauth 0 now store
      { ch with tokenExpiry := some (now - 1) } token a e (forced_needsRefresh now) hOk] at hr2
    cases hc : env.call 1 with
    | ok p => exact absurd hc (hCall1 p)
    | unauthorized => simp [make_esi_call, hr1, h401, hr2, hc]
    | forbidden => simp [make_esi_call, hr1, h401, hr2, hc]
    | notFound => simp [make_esi_call, hr1, h401, hr2, hc]
    | serverError s => simp [make_esi_call, hr1, h401, hr2, hc]
    | otherError => simp [make_esi_call, hr1, h401, hr2, hc]
  · intro hNotOk
    have hr2 := tm_eq_refreshStep env.oauth 0 now store
      { ch with tokenExpiry := some (now - 1) } S token hTok hScope
    obtain ⟨err, herr⟩ := refreshStep_error_of_not_ok env.oauth 0 now store
      { ch with tokenExpiry := some (now - 1) } token (forced_needsRefresh now) hNotOk
    rw [herr] at hr2
    simp [make_esi_call, hr1, h401, hr2]

namespace Fixtures

open WaitlistEsi

/-- A gateway environment whose wrapped operation returns 401 on the first
invocation and payload 7 on the retry, over an accepting OAuth authority. -/
def gwEnvRetryOk : GatewayEnv Nat :=
  ⟨fun n => if n = 0 then .unauthorized else .ok 7, refreshOkEnv⟩

end Fixtures

/-- C3 witness: the 401-then-success scenario at concrete inputs — payload
delivered, two invocations, one refresh. -/
theorem c3_gateway_401_witness :
    (Fixtures.gwEnvRetryOk.call 0 = .unauthorized)
    ∧ ((make_esi_call Fixtures.gwEnvRetryOk 60 Fixtures.demoStore
          (some Fixtures.freshCharacter) ["esi-skills.read_skills.v1"]).result = .ok 7)
    ∧ ((make_esi_call Fixtures.gwEnvRetryOk 60 Fixtures.demoStore
          (some Fixtures.freshCharacter) ["esi-skills.read_skills.v1"]).opCalls = 2)
    ∧ ((make_esi_call Fixtures.gwEnvRetryOk 60 Fixtures.demoStore
          (some Fixtures.freshCharacter) ["esi-skills.read_skills.v1"]).refreshAttempts = 1) :=
  ⟨rfl,
   ((c3_gateway_401_single_retry Fixtures.gwEnvRetryOk 60 Fixtures.demoStore
      Fixtures.freshCharacter ["esi-skills.read_skills.v1"] Fixtures.demoToken rfl
      (by decide) (by decide) rfl).1 "access-new" 120 7 rfl rfl).1,
   ((c3_gateway_401_single_retry Fixtures.gwEnvRetryOk 60 Fixtures.demoStore
      Fixtures.freshCharacter ["esi-skills.read_skills.v1"] Fixtures.demoToken rfl
      (by decide) (by decide) rfl).1 "access-new" 120 7 rfl rfl).2.1,
   ((c3_gateway_401_single_retry Fixtures.gwEnvRetryOk 60 Fixtures.demoStore
      Fixtures.freshCharacter ["esi-skills.read_skills.v1"] Fixtures.demoToken rfl
      (by decide) (by decide) rfl).1 "access-new" 120 7 rfl rfl).2.2⟩

namespace Fixtures

open WaitlistEsi PilotViews

/-- A backfill environment where every detail fetch fails. -/
def stubBackfillEnv : BackfillEnv := ⟨fun _ => .err, fun _ => .err⟩

/-- A snapshot already holding data for both sections. -/
def priorSnapshot : Snapshot := ⟨some "skills-v1", some "implants-v1"⟩

/-- Empty SDE tables. -/
def emptySde : SdeDb := ⟨[], [], []⟩

/-- A well-formed skills payload, newer than the stored one. -/
def c1SkillsPayload : SkillsPayload := ⟨true, true, "skills-v2", [3339]⟩

/-- Refresh environment where the skills fetch succeeds and the implants
fetch fails (e.g. a 502). -/
def c1Env : PilotApiEnv := ⟨.ok c1SkillsPayload, .err, stubPublicEnv, stubBackfillEnv⟩

end Fixtures

/-- C1 counterexample: a combined refresh where skills succeed and implants
fail leaves the STORED snapshot's skills_json at its prior value (the
in-memory update is discarded, never saved) and returns a plain 500 error —
not a partial success with skills updated, as the claim states. -/
theorem c1_counterexample :
    (api_refresh_pilot_body Fixtures.c1Env .all (some Fixtures.priorSnapshot)
        Fixtures.freshCharacter Fixtures.emptySde).snapshot.skillsJson = some "skills-v1"
    ∧ (api_refresh_pilot_body Fixtures.c1Env .all (some Fixtures.priorSnapshot)
        Fixtures.freshCharacter Fixtures.emptySde).snapshot.implantsJson = some "implants-v1"
    ∧ (api_refresh_pilot_body Fixtures.c1Env .all (some Fixtures.priorSnapshot)
        Fixtures.freshCharacter Fixtures.emptySde).response = .error 500 := ⟨rfl, rfl, rfl⟩

/-- C1 amended: in a combined refresh, a failing or malformed section does
abort only after discarding everything: the snapshot row keeps its prior
values for ALL sections — including sections fetched successfully earlier
in the same call, whose in-memory updates are lost because the single
`snapshot.save()` is never reached — and the call reports one overall 500
error, not a partial success.  Per-section isolation exists only across
separate calls with a single `?section=` value. -/
theorem c1_failing_section_aborts_whole_refresh (env : PilotApiEnv)
    (prior : Snapshot) (ch : EveCharacter) (sde : SdeDb) (p : SkillsPayload)
    (hSkills : env.skillsFetch = .ok p)
    (hValid : p.hasSkills = true ∧ p.hasTotalSp = true)
    (hImp : env.implantsFetch = .err ∨ env.implantsFetch = .notFound
        ∨ ∃ q, env.implantsFetch = .ok q ∧ q.isList = false) :
    (api_refresh_pilot_body env .all (some prior) ch sde).response = .error 500
    ∧ (api_refresh_pilot_body env .all (some prior) ch sde).snapshot = prior
    ∧ (api_refresh_pilot_body env .all (some prior) ch sde).character = ch
    ∧ (api_refresh_pilot_body env .all (some prior) ch sde).sde = sde := by
  rcases hImp with h | h | ⟨q, hq, hlist⟩
  · simp [api_refresh_pilot_body, runsSection, hSkills, hValid.1, hValid.2, h]
  · simp [api_refresh_pilot_body, runsSection, hSkills, hValid.1, hValid.2, h]
  · simp [api_refresh_pilot_body, runsSection, hSkills, hValid.1, hValid.2, hq, hlist]

/-- C1 witness: the amended statement at the concrete skills-ok,
implants-502 scenario. -/
theorem c1_aborts_witness :
    (Fixtures.c1Env.skillsFetch = .ok Fixtures.c1SkillsPayload)
    ∧ (Fixtures.c1Env.implantsFetch = .err)
    ∧ (api_refresh_pilot_body Fixtures.c1Env .all (some Fixtures.priorSnapshot)
        Fixtures.freshCharacter Fixtures.emptySde).response = .error 500
    ∧ (api_refresh_pilot_body Fixtures.c1Env .all (some Fixtures.priorSnapshot)
        Fixtures.freshCharacter Fixtures.emptySde).snapshot = Fixtures.priorSnapshot :=
  ⟨rfl, rfl,
   (c1_failing_section_aborts_whole_refresh Fixtures.c1Env Fixtures.priorSnapshot
      Fixtures.freshCharacter Fixtures.emptySde Fixtures.c1SkillsPayload rfl
      ⟨rfl, rfl⟩ (Or.inl rfl)).1,
   (c1_failing_section_aborts_whole_refresh Fixtures.c1Env Fixtures.priorSnapshot
      Fixtures.freshCharacter Fixtures.emptySde Fixtures.c1SkillsPayload rfl
      ⟨rfl, rfl⟩ (Or.inl rfl)).2.1⟩

namespace PilotViews

/-- The referential invariant of the SDE cache: every EveType row points at
an existing EveGroup row. -/
def typesLinked (db : SdeDb) : Prop :=
  ∀ t ∈ db.types, ∃ g ∈ db.groups, g.groupId = t.groupId


theorem cacheOneType_eq_fetchfail (env : BackfillEnv) (st : SdeDb × Nat) (id : Nat)
    (h : env.typeFetch id = .notFound ∨ env.typeFetch id = .err) :
    cacheOneType env st id = st := by
  unfold cacheOneType
  rcases h with h | h <;> rw [h]

theorem cacheOneType_eq_cached (env : BackfillEnv) (st : SdeDb × Nat) (id : Nat)
    (td : TypeData) (g : EveGroupRow)
    (h1 : env.typeFetch id = .ok td)
    (h2 : st.1.groups.find? (fun g => g.groupId == td.groupId) = some g) :
    cacheOneType env st id =
      ({ st.1 with types := st.1.types ++ [mkTypeRow id td g.groupId] }, st.2) := by
  unfold cacheOneType
  simp only [h1, h2]

theorem cacheOneType_eq_groupfail (env : BackfillEnv) (st : SdeDb × Nat) (id : Nat)
    (td : TypeData)
    (h1 : env.typeFetch id = .ok td)
    (h2 : st.1.groups.find? (fun g => g.groupId == td.groupId) = none)
    (h3 : env.groupFetch td.groupId = .notFound ∨ env.groupFetch td.groupId = .err) :
    cacheOneType env st id = st := by
  unfold cacheOneType
  rcases h3 with h3 | h3 <;> simp only [h1, h2, h3]

theorem cacheOneType_eq_newgroup (env : BackfillEnv) (st : SdeDb × Nat) (id : Nat)
    (td : TypeData) (gd : GroupData)
    (h1 : env.typeFetch id = .ok td)
    (h2 : st.1.groups.find? (fun g => g.groupId == td.groupId) = none)
    (h3 : env.groupFetch td.groupId = .ok gd) :
    cacheOneType env st id =
      ({ st.1 with
          types := st.1.types ++ [mkTypeRow id td td.groupId]
          groups := st.1.groups ++
            [⟨td.groupId, gd.name,
              (match gd.categoryId with
               | none => ((none : Option Nat), st.2)
               | some cid =>
                 if cid ∈ st.1.categories then (some cid, st.2) else (none, st.2 + 1)).1,
              gd.published⟩] },
       (match gd.categoryId with
        | none => ((none : Option Nat), st.2)
        | some cid =>
          if cid ∈ st.1.categories then (some cid, st.2) else (none, st.2 + 1)).2) := by
  unfold cacheOneType
  simp only [h1, h2, h3]

theorem cacheOneType_types_sub (env : BackfillEnv) (st : SdeDb × Nat) (id : Nat) :
    ∀ t ∈ (cacheOneType env st id).1.types, t ∈ st.1.types ∨ t.typeId = id := by
  intro t ht
  cases henv : env.typeFetch id with
  | notFound => rw [cacheOneType_eq_fetchfail env st id (Or.inl henv)] at ht; exact Or.inl ht
  | err => rw [cacheOneType_eq_fetchfail env st id (Or.inr henv)] at ht; exact Or.inl ht
  | ok td =>
    cases hfind : st.1.groups.find? (fun g => g.groupId == td.groupId) with
    | some g =>
      rw [cacheOneType_eq_cached env st id td g henv hfind] at ht
      simp only [List.mem_append, List.mem_singleton] at ht
      rcases ht with h | h
      · exact Or.inl h
      · right; rw [h]; rfl
    | none =>
      cases hgf : env.groupFetch td.groupId with
      | notFound =>
        rw [cacheOneType_eq_groupfail env st id td henv hfind (Or.inl hgf)] at ht
        exact Or.inl ht
      | err =>
        rw [cacheOneType_eq_groupfail env st id td henv hfind (Or.inr hgf)] at ht
        exact Or.inl ht
      | ok gd =>
        rw [cacheOneType_eq_newgroup env st id td gd henv hfind hgf] at ht
        simp only [List.mem_append, List.mem_singleton] at ht
        rcases ht with h | h
        · exact Or.inl h
        · right; rw [h]; rfl

theorem cacheOneType_groups_origin (env : BackfillEnv) (st : SdeDb × Nat) (id : Nat) :
    ∀ g ∈ (cacheOneType env st id).1.groups,
      g ∈ st.1.groups ∨ ∃ gd, env.groupFetch g.groupId = .ok gd := by
  intro g hg
  cases henv : env.typeFetch id with
  | notFound => rw [cacheOneType_eq_fetchfail env st id (Or.inl henv)] at hg; exact Or.inl hg
  | err => rw [cacheOneType_eq_fetchfail env st id (Or.inr henv)] at hg; exact Or.inl hg
  | ok td =>
    cases hfind : st.1.groups.find? (fun x => x.groupId == td.groupId) with
    | some gx =>
      rw [cacheOneType_eq_cached env st id td gx henv hfind] at hg
      exact Or.inl hg
    | none =>
      cases hgf : env.groupFetch td.groupId with
      | notFound =>
        rw [cacheOneType_eq_groupfail env st id td henv hfind (Or.inl hgf)] at hg
        exact Or.inl hg
      | err =>
        rw [cacheOneType_eq_groupfail env st id td henv hfind (Or.inr hgf)] at hg
        exact Or.inl hg
      | ok gd =>
        rw [cacheOneType_eq_newgroup env st id td gd henv hfind hgf] at hg
        simp only [List.mem_append, List.mem_singleton] at hg
        rcases hg with h | h
        · exact Or.inl h
        · right; exact ⟨gd, by rw [h]; exact hgf⟩

theorem cacheOneType_linked (env : BackfillEnv) (st : SdeDb × Nat) (id : Nat)
    (h : typesLinked st.1) : typesLinked (cacheOneType env st id).1 := by
  cases henv : env.typeFetch id with
  | notFound => rw [cacheOneType_eq_fetchfail env st id (Or.inl henv)]; exact h
  | err => rw [cacheOneType_eq_fetchfail env st id (Or.inr henv)]; exact h
  | ok td =>
    cases hfind : st.1.groups.find? (fun g => g.groupId == td.groupId) with
    | some g =>
      rw [cacheOneType_eq_cached env st id td g henv hfind]
      intro t ht
      simp only [List.mem_append, List.mem_singleton] at ht
      rcases ht with hmem | heq
      · exact h t hmem
      · refine ⟨g, List.mem_of_find?_eq_some hfind, ?_⟩
        rw [heq]
        rfl
    | none =>
      cases hgf : env.groupFetch td.groupId with
      | notFound => rw [cacheOneType_eq_groupfail env st id td henv hfind (Or.inl hgf)]; exact h
      | err => rw [cacheOneType_eq_groupfail env st id td henv hfind (Or.inr hgf)]; exact h
      | ok gd =>
        rw [cacheOneType_eq_newgroup env st id td gd henv hfind hgf]
        intro t ht
        simp only [List.mem_append, List.mem_singleton] at ht
        rcases ht with hmem | heq
        · obtain ⟨g0, hg0, hid0⟩ := h t hmem
          exact ⟨g0, by simp [hg0], hid0⟩
        · refine ⟨⟨td.groupId, gd.name,
            (match gd.categoryId with
             | none => ((none : Option Nat), st.2)
             | some cid =>
               if cid ∈ st.1.categories then (some cid, st.2) else (none, st.2 + 1)).1,
            gd.published⟩, ?_, ?_⟩
          · simp
          · rw [heq]
            rfl

theorem foldl_cacheOneType_pred (env : BackfillEnv) (P : SdeDb × Nat → Prop)
    (hstep : ∀ st id, P st → P (cacheOneType env st id)) :
    ∀ (l : List Nat) (st : SdeDb × Nat), P st → P (l.foldl (cacheOneType env) st) := by
  intro l
  induction l with
  | nil => intro st h; exact h
  | cons a l ih => intro st h; exact ih _ (hstep st a h)

theorem cache_missing_linked (env : BackfillEnv) (db : SdeDb) (ids : List Nat)
    (h : typesLinked db) : typesLinked (cache_missing_eve_types env db ids).1 := by
  unfold cache_missing_eve_types
  by_cases hids : ids.isEmpty
  · simp only [hids, if_true]
    exact h
  · simp only [hids, if_false, Bool.false_eq_true]
    exact foldl_cacheOneType_pred env (fun st => typesLinked st.1)
      (fun st id hp => cacheOneType_linked env st id hp) _ (db, 0) h

theorem cacheOneType_skip (env : BackfillEnv) (st : SdeDb × Nat) (id : Nat) (td : TypeData)
    (htd : env.typeFetch id = .ok td)
    (hgrp : ∀ g ∈ st.1.groups, g.groupId ≠ td.groupId)
    (hfetch : ∀ gd, env.groupFetch td.groupId ≠ .ok gd) :
    cacheOneType env st id = st := by
  have hfind : st.1.groups.find? (fun g => g.groupId == td.groupId) = none := by
    apply List.find?_eq_none.mpr
    intro g hg
    simpa using hgrp g hg
  cases hgf : env.groupFetch td.groupId with
  | ok gd => exact absurd hgf (hfetch gd)
  | notFound => exact cacheOneType_eq_groupfail env st id td htd hfind (Or.inl hgf)
  | err => exact cacheOneType_eq_groupfail env st id td htd hfind (Or.inr hgf)

theorem cache_missing_no_orphan (env : BackfillEnv) (db : SdeDb) (ids : List Nat)
    (X : Nat) (td : TypeData)
    (hX : ∀ t ∈ db.types, t.typeId ≠ X)
    (htd : env.typeFetch X = .ok td)
    (hgrp : ∀ g ∈ db.groups, g.groupId ≠ td.groupId)
    (hfetch : ∀ gd, env.groupFetch td.groupId ≠ .ok gd) :
    ∀ t ∈ (cache_missing_eve_types env db ids).1.types, t.typeId ≠ X := by
  have key : ∀ (st : SdeDb × Nat) (id : Nat),
      ((∀ t ∈ st.1.types, t.typeId ≠ X) ∧ (∀ g ∈ st.1.groups, g.groupId ≠ td.groupId)) →
      ((∀ t ∈ (cacheOneType env st id).1.types, t.typeId ≠ X)
        ∧ (∀ g ∈ (cacheOneType env st id).1.groups, g.groupId ≠ td.groupId)) := by
    intro st id hP
    constructor
    · intro t ht
      by_cases hiX : id = X
      · subst hiX
        rw [cacheOneType_skip env st id td htd hP.2 hfetch] at ht
        exact hP.1 t ht
      · rcases cacheOneType_types_sub env st id t ht with hmem | hid
        · exact hP.1 t hmem
        · rw [hid]; exact hiX
    · intro g hg
      rcases cacheOneType_groups_origin env st id g hg with hmem | ⟨gd, hgd⟩
      · exact hP.2 g hmem
      · intro hEq
        rw [hEq] at hgd
        exact hfetch gd hgd
  unfold cache_missing_eve_types
  by_cases hids : ids.isEmpty
  · simp only [hids, if_true]
    exact hX
  · simp only [hids, if_false, Bool.false_eq_true]
    exact (foldl_cacheOneType_pred env
      (fun st => (∀ t ∈ st.1.types, t.typeId ≠ X) ∧ (∀ g ∈ st.1.groups, g.groupId ≠ td.groupId))
      (fun st id hp => key st id hp) _ (db, 0) ⟨hX, hgrp⟩).1

end PilotViews

namespace FitParser

open PilotViews

/-- The store contains some group row with this id. -/
def hasGroupId (db : SdeDb) (x : Nat) : Prop := ∃ g ∈ db.groups, g.groupId = x

/-- The group table produced by a successful get_or_cache_eve_group miss:
the placeholder row is created, then updated in place with the real name. -/
def gocgOkGroups (db : SdeDb) (gid : Nat) (gd : GroupData) : List EveGroupRow :=
  replaceGroup (db.groups ++ [⟨gid, "...Fetching from ESI...", none, true⟩]) gid
    ⟨gid, gd.name, none, true⟩

theorem gocg_eq_found (env : FitEnv) (db : SdeDb) (gid : Nat) (g : EveGroupRow)
    (h : db.groups.find? (fun g => g.groupId == gid) = some g) :
    get_or_cache_eve_group env db gid = (some g, db) := by
  unfold get_or_cache_eve_group
  simp only [h]

theorem gocg_eq_ok (env : FitEnv) (db : SdeDb) (gid : Nat) (gd : GroupData)
    (h1 : db.groups.find? (fun g => g.groupId == gid) = none)
    (h2 : env.groupFetch gid = .ok gd) :
    get_or_cache_eve_group env db gid =
      (some ⟨gid, gd.name, none, true⟩, { db with groups := gocgOkGroups db gid gd }) := by
  unfold get_or_cache_eve_group gocgOkGroups
  simp only [h1, h2]

theorem gocg_eq_fail (env : FitEnv) (db : SdeDb) (gid : Nat)
    (h1 : db.groups.find? (fun g => g.groupId == gid) = none)
    (h2 : env.groupFetch gid = .notFound ∨ env.groupFetch gid = .err) :
    get_or_cache_eve_group env db gid =
      (none, { db with groups := db.groups ++ [⟨gid, "...Fetching from ESI...", none, true⟩] }) := by
  unfold get_or_cache_eve_group
  rcases h2 with h2 | h2 <;> simp only [h1, h2]

theorem replaceGroup_hasId (gs : List EveGroupRow) (gid : Nat) (g1 : EveGroupRow)
    (hg1 : g1.groupId = gid) (x : Nat)
    (h : ∃ g ∈ gs, g.groupId = x) : ∃ g ∈ replaceGroup gs gid g1, g.groupId = x := by
  obtain ⟨g, hmem, hid⟩ := h
  by_cases hrep : g.groupId == gid
  · refine ⟨g1, ?_, ?_⟩
    · unfold replaceGroup
      exact List.mem_map.mpr ⟨g, hmem, by simp [hrep]⟩
    · rw [hg1, ← eq_of_beq hrep]
      exact hid
  · refine ⟨g, ?_, hid⟩
    unfold replaceGroup
    exact List.mem_map.mpr ⟨g, hmem, by simp [hrep]⟩

theorem gocg_types (env : FitEnv) (db : SdeDb) (gid : Nat) (o : Option EveGroupRow)
    (db1 : SdeDb) (h : get_or_cache_eve_group env db gid = (o, db1)) :
    db1.types = db.types := by
  cases hfind : db.groups.find? (fun g => g.groupId == gid) with
  | some g =>
    rw [gocg_eq_found env db gid g hfind] at h
    injection h with h1 h2
    rw [← h2]
  | none =>
    cases hgf : env.groupFetch gid with
    | ok gd =>
      rw [gocg_eq_ok env db gid gd hfind hgf] at h
      injection h with h1 h2
      rw [← h2]
    | notFound =>
      rw [gocg_eq_fail env db gid hfind (Or.inl hgf)] at h
      injection h with h1 h2
      rw [← h2]
    | err =>
      rw [gocg_eq_fail env db gid hfind (Or.inr hgf)] at h
      injection h with h1 h2
      rw [← h2]

theorem gocg_mono (env : FitEnv) (db : SdeDb) (gid : Nat) (o : Option EveGroupRow)
    (db1 : SdeDb) (h : get_or_cache_eve_group env db gid = (o, db1)) (x : Nat)
    (hx : hasGroupId db x) : hasGroupId db1 x := by
  cases hfind : db.groups.find? (fun g => g.groupId == gid) with
  | some g =>
    rw [gocg_eq_found env db gid g hfind] at h
    injection h with h1 h2
    rw [← h2]
    exact hx
  | none =>
    cases hgf : env.groupFetch gid with
    | ok gd =>
      rw [gocg_eq_ok env db gid gd hfind hgf] at h
      injection h with h1 h2
      rw [← h2]
      show ∃ g ∈ gocgOkGroups db gid gd, g.groupId = x
      unfold gocgOkGroups
      exact replaceGroup_hasId
        (db.groups ++ [⟨gid, "...Fetching from ESI...", none, true⟩]) gid
        ⟨gid, gd.name, none, true⟩ rfl x
        (by obtain ⟨g, hm, hi⟩ := hx; exact ⟨g, by simp [hm], hi⟩)
    | notFound =>
      rw [gocg_eq_fail env db gid hfind (Or.inl hgf)] at h
      injection h with h1 h2
      rw [← h2]
      obtain ⟨g, hm, hi⟩ := hx
      exact ⟨g, by simp [hm], hi⟩
    | err =>
      rw [gocg_eq_fail env db gid hfind (Or.inr hgf)] at h
      injection h with h1 h2
      rw [← h2]
      obtain ⟨g, hm, hi⟩ := hx
      exact ⟨g, by simp [hm], hi⟩

theorem gocg_some (env : FitEnv) (db : SdeDb) (gid : Nat) (g : EveGroupRow)
    (db1 : SdeDb) (h : get_or_cache_eve_group env db gid = (some g, db1)) :
    hasGroupId db1 g.groupId := by
  cases hfind : db.groups.find? (fun x => x.groupId == gid) with
  | some g0 =>
    rw [gocg_eq_found env db gid g0 hfind] at h
    injection h with h1 h2
    injection h1 with h1
    rw [← h2, ← h1]
    exact ⟨g0, List.mem_of_find?_eq_some hfind, rfl⟩
  | none =>
    cases hgf : env.groupFetch gid with
    | ok gd =>
      rw [gocg_eq_ok env db gid gd hfind hgf] at h
      injection h with h1 h2
      injection h1 with h1
      rw [← h2, ← h1]
      show ∃ g ∈ gocgOkGroups db gid gd, g.groupId = gid
      unfold gocgOkGroups
      exact replaceGroup_hasId
        (db.groups ++ [⟨gid, "...Fetching from ESI...", none, true⟩]) gid
        ⟨gid, gd.name, none, true⟩ rfl gid
        ⟨⟨gid, "...Fetching from ESI...", none, true⟩, by simp, rfl⟩
    | notFound =>
      rw [gocg_eq_fail env db gid hfind (Or.inl hgf)] at h
      injection h with h1 h2
      exact absurd h1 (by simp)
    | err =>
      rw [gocg_eq_fail env db gid hfind (Or.inr hgf)] at h
      injection h with h1 h2
      exact absurd h1 (by simp)

theorem gocg_groups_origin (env : FitEnv) (db : SdeDb) (gid : Nat)
    (o : Option EveGroupRow) (db1 : SdeDb)
    (h : get_or_cache_eve_group env db gid = (o, db1)) :
    ∀ g ∈ db1.groups, g ∈ db.groups ∨ g.groupId = gid := by
  intro g hg
  cases hfind : db.groups.find? (fun x => x.groupId == gid) with
  | some g0 =>
    rw [gocg_eq_found env db gid g0 hfind] at h
    injection h with h1 h2
    rw [← h2] at hg
    exact Or.inl hg
  | none =>
    cases hgf : env.groupFetch gid with
    | ok gd =>
      rw [gocg_eq_ok env db gid gd hfind hgf] at h
      injection h with h1 h2
      rw [← h2] at hg
      simp only [gocgOkGroups, replaceGroup, List.mem_map] at hg
      obtain ⟨a, ha, hEq⟩ := hg
      by_cases hrep : a.groupId == gid
      · rw [if_pos hrep] at hEq
        right
        rw [← hEq]
      · rw [if_neg hrep] at hEq
        simp only [List.mem_append, List.mem_singleton] at ha
        rcases ha with ha | ha
        · left; rw [← hEq]; exact ha
        · exfalso
          apply hrep
          rw [ha]
          exact beq_self_eq_true gid
    | notFound =>
      rw [gocg_eq_fail env db gid hfind (Or.inl hgf)] at h
      injection h with h1 h2
      rw [← h2] at hg
      simp only [List.mem_append, List.mem_singleton] at hg
      rcases hg with hg | hg
      · exact Or.inl hg
      · right; rw [hg]
    | err =>
      rw [gocg_eq_fail env db gid hfind (Or.inr hgf)] at h
      injection h with h1 h2
      rw [← h2] at hg
      simp only [List.mem_append, List.mem_singleton] at hg
      rcases hg with hg | hg
      · exact Or.inl hg
      · right; rw [hg]

end FitParser

namespace FitParser

open PilotViews

theorem removeType_no_tid (ts : List EveTypeRow) (tid : Nat) :
    ∀ t ∈ removeType ts tid, t.typeId ≠ tid := by
  intro t ht
  unfold removeType at ht
  have := List.of_mem_filter ht
  simpa using this

theorem removeType_sub (ts : List EveTypeRow) (tid : Nat) :
    ∀ t ∈ removeType ts tid, t ∈ ts := by
  intro t ht
  unfold removeType at ht
  exact List.mem_of_mem_filter ht

theorem replaceTypeRow_mem (ts : List EveTypeRow) (tid : Nat) (t1 : EveTypeRow) :
    ∀ t ∈ replaceTypeRow ts tid t1, t ∈ ts ∨ t = t1 := by
  intro t ht
  unfold replaceTypeRow at ht
  obtain ⟨a, ha, hEq⟩ := List.mem_map.mp ht
  by_cases hrep : a.typeId == tid
  · rw [if_pos hrep] at hEq
    right
    rw [← hEq]
  · rw [if_neg hrep] at hEq
    left
    rw [← hEq]
    exact ha

theorem typesLinked_transport (db db' : SdeDb)
    (hT : db'.types = db.types)
    (hG : ∀ x, hasGroupId db x → hasGroupId db' x)
    (h : typesLinked db) : typesLinked db' := by
  intro t ht
  rw [hT] at ht
  exact hG t.groupId (h t ht)

theorem goct_fill_eq_fetchfail (env : FitEnv) (db1 : SdeDb) (tid : Nat) (ph : EveTypeRow)
    (h : env.typeFetch tid = .notFound ∨ env.typeFetch tid = .err) :
    goct_fill env db1 tid ph = (none, db1) := by
  unfold goct_fill
  rcases h with h | h <;> rw [h]

theorem goct_fill_eq_groupnone (env : FitEnv) (db1 : SdeDb) (tid : Nat) (ph : EveTypeRow)
    (td : TypeData) (db2 : SdeDb)
    (h1 : env.typeFetch tid = .ok td)
    (h2 : get_or_cache_eve_group env db1 td.groupId = (none, db2)) :
    goct_fill env db1 tid ph = (none, { db2 with types := removeType db2.types tid }) := by
  unfold goct_fill
  simp only [h1, h2]

theorem goct_fill_eq_groupsome (env : FitEnv) (db1 : SdeDb) (tid : Nat) (ph : EveTypeRow)
    (td : TypeData) (g : EveGroupRow) (db2 : SdeDb)
    (h1 : env.typeFetch tid = .ok td)
    (h2 : get_or_cache_eve_group env db1 td.groupId = (some g, db2)) :
    goct_fill env db1 tid ph =
      (some (fillRow ph td g tid),
       { db2 with types := replaceTypeRow db2.types tid (fillRow ph td g tid) }) := by
  unfold goct_fill
  simp only [h1, h2]

theorem goct_fill_linked (env : FitEnv) (db1 : SdeDb) (tid : Nat) (ph : EveTypeRow)
    (h : typesLinked db1) : typesLinked (goct_fill env db1 tid ph).2 := by
  cases htf : env.typeFetch tid with
  | notFound => rw [goct_fill_eq_fetchfail env db1 tid ph (Or.inl htf)]; exact h
  | err => rw [goct_fill_eq_fetchfail env db1 tid ph (Or.inr htf)]; exact h
  | ok td =>
    cases hg : get_or_cache_eve_group env db1 td.groupId with
    | mk o db2 =>
      have hT : db2.types = db1.types := gocg_types env db1 td.groupId o db2 hg
      have hL : typesLinked db2 :=
        typesLinked_transport db1 db2 hT
          (fun x hx => gocg_mono env db1 td.groupId o db2 hg x hx) h
      cases o with
      | none =>
        rw [goct_fill_eq_groupnone env db1 tid ph td db2 htf hg]
        intro t ht
        exact hL t (removeType_sub db2.types tid t ht)
      | some g =>
        rw [goct_fill_eq_groupsome env db1 tid ph td g db2 htf hg]
        intro t ht
        rcases replaceTypeRow_mem db2.types tid (fillRow ph td g tid) t ht with hold | hnew
        · exact hL t hold
        · rw [hnew]
          exact gocg_some env db1 td.groupId g db2 hg

theorem goct_fill_groupfail (env : FitEnv) (db1 : SdeDb) (tid : Nat) (ph : EveTypeRow)
    (td : TypeData)
    (htd : env.typeFetch tid = .ok td)
    (hgrp1 : ∀ g ∈ db1.groups, g.groupId ≠ td.groupId)
    (hfetch : ∀ gd, env.groupFetch td.groupId ≠ .ok gd) :
    (goct_fill env db1 tid ph).1 = none
    ∧ ∀ t ∈ (goct_fill env db1 tid ph).2.types, t.typeId ≠ tid := by
  have hfind : db1.groups.find? (fun g => g.groupId == td.groupId) = none := by
    apply List.find?_eq_none.mpr
    intro g hgmem
    simpa using hgrp1 g hgmem
  have hez : get_or_cache_eve_group env db1 td.groupId =
      (none, { db1 with groups :=
        db1.groups ++ [⟨td.groupId, "...Fetching from ESI...", none, true⟩] }) := by
    cases hgf : env.groupFetch td.groupId with
    | ok gd => exact absurd hgf (hfetch gd)
    | notFound => exact gocg_eq_fail env db1 td.groupId hfind (Or.inl hgf)
    | err => exact gocg_eq_fail env db1 td.groupId hfind (Or.inr hgf)
  rw [goct_fill_eq_groupnone env db1 tid ph td _ htd hez]
  constructor
  · rfl
  · intro t ht
    exact removeType_no_tid _ tid t ht

theorem defaultGroup_eq_some (env : FitEnv) (db : SdeDb) (g : EveGroupRow) (db1 : SdeDb)
    (h : get_or_cache_eve_group env db 0 = (some g, db1)) :
    defaultGroup env db = (g, db1) := by
  unfold defaultGroup
  simp only [h]

theorem defaultGroup_eq_none_found (env : FitEnv) (db : SdeDb) (db1 : SdeDb) (g : EveGroupRow)
    (h : get_or_cache_eve_group env db 0 = (none, db1))
    (h2 : db1.groups.find? (fun g => g.groupId == 0) = some g) :
    defaultGroup env db = (g, db1) := by
  unfold defaultGroup
  simp only [h, h2]

theorem defaultGroup_eq_none_none (env : FitEnv) (db : SdeDb) (db1 : SdeDb)
    (h : get_or_cache_eve_group env db 0 = (none, db1))
    (h2 : db1.groups.find? (fun g => g.groupId == 0) = none) :
    defaultGroup env db =
      (⟨0, "Unknown", none, true⟩,
       { db1 with groups := db1.groups ++ [⟨0, "Unknown", none, true⟩] }) := by
  unfold defaultGroup
  simp only [h, h2]

theorem defaultGroup_types (env : FitEnv) (db : SdeDb) (dgp : EveGroupRow) (db0 : SdeDb)
    (h : defaultGroup env db = (dgp, db0)) : db0.types = db.types := by
  cases hg : get_or_cache_eve_group env db 0 with
  | mk o db1 =>
    have hTypes : db1.types = db.types := gocg_types env db 0 o db1 hg
    cases o with
    | some g =>
      rw [defaultGroup_eq_some env db g db1 hg] at h
      injection h with h1 h2
      rw [← h2]
      exact hTypes
    | none =>
      cases hfind : db1.groups.find? (fun g => g.groupId == 0) with
      | some g =>
        rw [defaultGroup_eq_none_found env db db1 g hg hfind] at h
        injection h with h1 h2
        rw [← h2]
        exact hTypes
      | none =>
        rw [defaultGroup_eq_none_none env db db1 hg hfind] at h
        injection h with h1 h2
        rw [← h2]
        exact hTypes

theorem defaultGroup_mono (env : FitEnv) (db : SdeDb) (dgp : EveGroupRow) (db0 : SdeDb)
    (h : defaultGroup env db = (dgp, db0)) (x : Nat)
    (hx : hasGroupId db x) : hasGroupId db0 x := by
  cases hg : get_or_cache_eve_group env db 0 with
  | mk o db1 =>
    have hMono : hasGroupId db1 x := gocg_mono env db 0 o db1 hg x hx
    cases o with
    | some g =>
      rw [defaultGroup_eq_some env db g db1 hg] at h
      injection h with h1 h2
      rw [← h2]
      exact hMono
    | none =>
      cases hfind : db1.groups.find? (fun g => g.groupId == 0) with
      | some g =>
        rw [defaultGroup_eq_none_found env db db1 g hg hfind] at h
        injection h with h1 h2
        rw [← h2]
        exact hMono
      | none =>
        rw [defaultGroup_eq_none_none env db db1 hg hfind] at h
        injection h with h1 h2
        rw [← h2]
        obtain ⟨g, hm, hi⟩ := hMono
        exact ⟨g, by simp [hm], hi⟩

theorem defaultGroup_self (env : FitEnv) (db : SdeDb) (dgp : EveGroupRow) (db0 : SdeDb)
    (h : defaultGroup env db = (dgp, db0)) : hasGroupId db0 dgp.groupId := by
  cases hg : get_or_cache_eve_group env db 0 with
  | mk o db1 =>
    cases o with
    | some g =>
      rw [defaultGroup_eq_some env db g db1 hg] at h
      injection h with h1 h2
      rw [← h2, ← h1]
      exact gocg_some env db 0 g db1 hg
    | none =>
      cases hfind : db1.groups.find? (fun g => g.groupId == 0) with
      | some g =>
        rw [defaultGroup_eq_none_found env db db1 g hg hfind] at h
        injection h with h1 h2
        rw [← h2, ← h1]
        exact ⟨g, List.mem_of_find?_eq_some hfind, rfl⟩
      | none =>
        rw [defaultGroup_eq_none_none env db db1 hg hfind] at h
        injection h with h1 h2
        rw [← h2, ← h1]
        exact ⟨⟨0, "Unknown", none, true⟩, by simp, rfl⟩

theorem defaultGroup_groups_origin (env : FitEnv) (db : SdeDb) (dgp : EveGroupRow)
    (db0 : SdeDb) (h : defaultGroup env db = (dgp, db0)) :
    ∀ g ∈ db0.groups, g ∈ db.groups ∨ g.groupId = 0 := by
  intro g hgmem
  cases hg : get_or_cache_eve_group env db 0 with
  | mk o db1 =>
    have hOrigin := gocg_groups_origin env db 0 o db1 hg
    cases o with
    | some g0 =>
      rw [defaultGroup_eq_some env db g0 db1 hg] at h
      injection h with h1 h2
      rw [← h2] at hgmem
      exact hOrigin g hgmem
    | none =>
      cases hfind : db1.groups.find? (fun x => x.groupId == 0) with
      | some g0 =>
        rw [defaultGroup_eq_none_found env db db1 g0 hg hfind] at h
        injection h with h1 h2
        rw [← h2] at hgmem
        exact hOrigin g hgmem
      | none =>
        rw [defaultGroup_eq_none_none env db db1 hg hfind] at h
        injection h with h1 h2
        rw [← h2] at hgmem
        simp only [List.mem_append, List.mem_singleton] at hgmem
        rcases hgmem with hgmem | hgmem
        · exact hOrigin g hgmem
        · right
          rw [hgmem]

theorem goct_eq_byname (env : FitEnv) (db : SdeDb) (itemName : String) (t : EveTypeRow)
    (h : db.types.find? (fun t => t.name.toLower == itemName.toLower) = some t) :
    get_or_cache_eve_type env db itemName = (some t, db) := by
  unfold get_or_cache_eve_type
  simp only [h]

theorem goct_eq_nolookup (env : FitEnv) (db : SdeDb) (itemName : String)
    (hname : db.types.find? (fun t => t.name.toLower == itemName.toLower) = none)
    (h : env.idLookup itemName = .notFound ∨ env.idLookup itemName = .err
      ∨ env.idLookup itemName = .ok none) :
    get_or_cache_eve_type env db itemName = (none, db) := by
  unfold get_or_cache_eve_type
  rcases h with h | h | h <;> simp only [hname, h]

theorem goct_eq_existing (env : FitEnv) (db : SdeDb) (itemName : String) (tid : Nat)
    (dgp : EveGroupRow) (db0 : SdeDb) (t : EveTypeRow)
    (hname : db.types.find? (fun t => t.name.toLower == itemName.toLower) = none)
    (hid : env.idLookup itemName = .ok (some tid))
    (hdg : defaultGroup env db = (dgp, db0))
    (hfindT : db0.types.find? (fun t => t.typeId == tid) = some t) :
    get_or_cache_eve_type env db itemName = (some t, db0) := by
  unfold get_or_cache_eve_type
  simp only [hname, hid, hdg, hfindT]

theorem goct_eq_fresh (env : FitEnv) (db : SdeDb) (itemName : String) (tid : Nat)
    (dgp : EveGroupRow) (db0 : SdeDb)
    (hname : db.types.find? (fun t => t.name.toLower == itemName.toLower) = none)
    (hid : env.idLookup itemName = .ok (some tid))
    (hdg : defaultGroup env db = (dgp, db0))
    (hfindT : db0.types.find? (fun t => t.typeId == tid) = none) :
    get_or_cache_eve_type env db itemName =
      goct_fill env { db0 with types := db0.types ++ [mkPlaceholder tid dgp] }
        tid (mkPlaceholder tid dgp) := by
  unfold get_or_cache_eve_type
  simp only [hname, hid, hdg, hfindT]

end FitParser

namespace FitParser

open PilotViews

theorem goct_linked (env : FitEnv) (db : SdeDb) (itemName : String)
    (h : typesLinked db) : typesLinked (get_or_cache_eve_type env db itemName).2 := by
  cases hname : db.types.find? (fun t => t.name.toLower == itemName.toLower) with
  | some t =>
    rw [goct_eq_byname env db itemName t hname]
    exact h
  | none =>
    cases hid : env.idLookup itemName with
    | notFound =>
      rw [goct_eq_nolookup env db itemName hname (Or.inl hid)]
      exact h
    | err =>
      rw [goct_eq_nolookup env db itemName hname (Or.inr (Or.inl hid))]
      exact h
    | ok o =>
      cases o with
      | none =>
        rw [goct_eq_nolookup env db itemName hname (Or.inr (Or.inr hid))]
        exact h
      | some tid =>
        cases hdgp : defaultGroup env db with
        | mk dgp db0 =>
          have hT : db0.types = db.types := defaultGroup_types env db dgp db0 hdgp
          have hL0 : typesLinked db0 :=
            typesLinked_transport db db0 hT (defaultGroup_mono env db dgp db0 hdgp) h
          cases hfindT : db0.types.find? (fun t => t.typeId == tid) with
          | some t =>
            rw [goct_eq_existing env db itemName tid dgp db0 t hname hid hdgp hfindT]
            exact hL0
          | none =>
            rw [goct_eq_fresh env db itemName tid dgp db0 hname hid hdgp hfindT]
            apply goct_fill_linked
            intro t ht
            simp only [List.mem_append, List.mem_singleton] at ht
            rcases ht with hold | hph
            · exact hL0 t hold
            · rw [hph]
              exact defaultGroup_self env db dgp db0 hdgp

theorem goct_group_failure_atomic (env : FitEnv) (db : SdeDb) (itemName : String)
    (tid : Nat) (td : TypeData)
    (hname : db.types.find? (fun t => t.name.toLower == itemName.toLower) = none)
    (hid : env.idLookup itemName = .ok (some tid))
    (hfresh : ∀ t ∈ db.types, t.typeId ≠ tid)
    (htd : env.typeFetch tid = .ok td)
    (hgid0 : td.groupId ≠ 0)
    (hgrp : ∀ g ∈ db.groups, g.groupId ≠ td.groupId)
    (hfetch : ∀ gd, env.groupFetch td.groupId ≠ .ok gd) :
    (get_or_cache_eve_type env db itemName).1 = none
    ∧ ∀ t ∈ (get_or_cache_eve_type env db itemName).2.types, t.typeId ≠ tid := by
  cases hdgp : defaultGroup env db with
  | mk dgp db0 =>
    have hT : db0.types = db.types := defaultGroup_types env db dgp db0 hdgp
    have hfindT : db0.types.find? (fun t => t.typeId == tid) = none := by
      apply List.find?_eq_none.mpr
      intro t ht
      rw [hT] at ht
      simpa using hfresh t ht
    rw [goct_eq_fresh env db itemName tid dgp db0 hname hid hdgp hfindT]
    apply goct_fill_groupfail _ _ _ _ td htd
    · intro g hg
      rcases defaultGroup_groups_origin env db dgp db0 hdgp g hg with hmem | h0
      · exact hgrp g hmem
      · rw [h0]
        exact fun hEq => hgid0 hEq.symm
    · exact hfetch

end FitParser

namespace PilotViews

theorem cache_missing_singleton (env : BackfillEnv) (db : SdeDb) (tid : Nat)
    (hfresh : ∀ t ∈ db.types, t.typeId ≠ tid) :
    cache_missing_eve_types env db [tid] = cacheOneType env (db, 0) tid := by
  have hnot : ¬ ∃ t ∈ db.types, t.typeId = tid := by
    rintro ⟨t, ht, hEq⟩
    exact hfresh t ht hEq
  unfold cache_missing_eve_types
  simp [hnot]

theorem cache_missing_noop (env : BackfillEnv) (db2 : SdeDb) (ids : List Nat)
    (hall : ∀ i ∈ ids, i ∈ db2.types.map (·.typeId)) :
    cache_missing_eve_types env db2 ids = (db2, 0) := by
  unfold cache_missing_eve_types
  by_cases hids : ids.isEmpty
  · rw [if_pos hids]
  · rw [if_neg hids]
    have hfilter : ids.dedup.filter
        (fun i => !(decide (i ∈ db2.types.map (·.typeId)))) = [] := by
      rw [List.filter_eq_nil_iff]
      intro a ha
      have : a ∈ ids := List.mem_dedup.mp ha
      simp [hall a this]
    simp only [hfilter, List.foldl_nil]

theorem cacheOneType_types_cases (env : BackfillEnv) (st : SdeDb × Nat) (id : Nat) :
    (cacheOneType env st id).1.types = st.1.types
    ∨ ∃ row : EveTypeRow, row.typeId = id
        ∧ (cacheOneType env st id).1.types = st.1.types ++ [row] := by
  cases henv : env.typeFetch id with
  | notFound => left; rw [cacheOneType_eq_fetchfail env st id (Or.inl henv)]
  | err => left; rw [cacheOneType_eq_fetchfail env st id (Or.inr henv)]
  | ok td =>
    cases hfind : st.1.groups.find? (fun g => g.groupId == td.groupId) with
    | some g =>
      right
      exact ⟨mkTypeRow id td g.groupId, rfl,
        by rw [cacheOneType_eq_cached env st id td g henv hfind]⟩
    | none =>
      cases hgf : env.groupFetch td.groupId with
      | notFound => left; rw [cacheOneType_eq_groupfail env st id td henv hfind (Or.inl hgf)]
      | err => left; rw [cacheOneType_eq_groupfail env st id td henv hfind (Or.inr hgf)]
      | ok gd =>
        right
        exact ⟨mkTypeRow id td td.groupId, rfl,
          by rw [cacheOneType_eq_newgroup env st id td gd henv hfind hgf]⟩

end PilotViews

namespace Fixtures

open WaitlistEsi PilotViews FitParser

/-- A type-detail payload declaring group 77. -/
def c7Td : TypeData := ⟨"Widget", 77, none, true, none, none, none, none, none⟩

/-- Backfill environment whose type fetches succeed but whose group fetches
all fail. -/
def c7FailEnv : BackfillEnv := ⟨fun _ => .ok c7Td, fun _ => .err⟩

/-- Fit environment resolving any name to id 42, with working type detail
but failing group detail. -/
def c7FitEnv : FitEnv := ⟨fun _ => .ok (some 42), fun _ => .ok c7Td, fun _ => .err⟩

end Fixtures

/-- C7: no backfill operation ever creates an EveType row whose group is
missing from the store.  For the pilot views backfill: the link invariant
is preserved by every run, and when a type's declared group can neither be
found nor fetched, no row for that type is created at all.  For the
fit-parser helper: the link invariant is preserved (the transient
placeholder always references an existing group row), and when the real
group cannot be resolved the placeholder is deleted — the lookup returns
none and no row for that id remains. -/
theorem c7_no_orphan_entities :
    (∀ (env : BackfillEnv) (db : SdeDb) (ids : List Nat),
        typesLinked db → typesLinked (cache_missing_eve_types env db ids).1)
    ∧ (∀ (env : BackfillEnv) (db : SdeDb) (ids : List Nat) (X : Nat) (td : TypeData),
        (∀ t ∈ db.types, t.typeId ≠ X) → env.typeFetch X = .ok td →
        (∀ g ∈ db.groups, g.groupId ≠ td.groupId) →
        (∀ gd, env.groupFetch td.groupId ≠ .ok gd) →
        ∀ t ∈ (cache_missing_eve_types env db ids).1.types, t.typeId ≠ X)
    ∧ (∀ (env : FitEnv) (db : SdeDb) (itemName : String),
        typesLinked db → typesLinked (get_or_cache_eve_type env db itemName).2)
    ∧ (∀ (env : FitEnv) (db : SdeDb) (itemName : String) (tid : Nat) (td : TypeData),
        db.types.find? (fun t => t.name.toLower == itemName.toLower) = none →
        env.idLookup itemName = .ok (some tid) →
        (∀ t ∈ db.types, t.typeId ≠ tid) →
        env.typeFetch tid = .ok td → td.groupId ≠ 0 →
        (∀ g ∈ db.groups, g.groupId ≠ td.groupId) →
        (∀ gd, env.groupFetch td.groupId ≠ .ok gd) →
        (get_or_cache_eve_type env db itemName).1 = none
          ∧ ∀ t ∈ (get_or_cache_eve_type env db itemName).2.types, t.typeId ≠ tid) :=
  ⟨cache_missing_linked,
   fun env db ids X td h1 h2 h3 h4 => cache_missing_no_orphan env db ids X td h1 h2 h3 h4,
   goct_linked,
   fun env db n tid td h1 h2 h3 h4 h5 h6 h7 =>
     goct_group_failure_atomic env db n tid td h1 h2 h3 h4 h5 h6 h7⟩

/-- C7 witness: both backfill operations at concrete inputs over an empty
store with failing group fetches — invariant preserved, no row created for
the failed ids. -/
theorem c7_no_orphan_witness :
    typesLinked (cache_missing_eve_types Fixtures.c7FailEnv Fixtures.emptySde [5]).1
    ∧ (∀ t ∈ (cache_missing_eve_types Fixtures.c7FailEnv Fixtures.emptySde [5]).1.types,
        t.typeId ≠ 5)
    ∧ typesLinked (get_or_cache_eve_type Fixtures.c7FitEnv Fixtures.emptySde "Widget").2
    ∧ (get_or_cache_eve_type Fixtures.c7FitEnv Fixtures.emptySde "Widget").1 = none :=
  ⟨c7_no_orphan_entities.1 Fixtures.c7FailEnv Fixtures.emptySde [5]
     (fun t ht => absurd ht (List.not_mem_nil t)),
   c7_no_orphan_entities.2.1 Fixtures.c7FailEnv Fixtures.emptySde [5] 5 Fixtures.c7Td
     (fun t ht => absurd ht (List.not_mem_nil t)) rfl
     (fun g hg => absurd hg (List.not_mem_nil g))
     (fun gd h => RawResult.noConfusion h),
   c7_no_orphan_entities.2.2.1 Fixtures.c7FitEnv Fixtures.emptySde "Widget"
     (fun t ht => absurd ht (List.not_mem_nil t)),
   (c7_no_orphan_entities.2.2.2 Fixtures.c7FitEnv Fixtures.emptySde "Widget" 42 Fixtures.c7Td
     rfl rfl (fun t ht => absurd ht (List.not_mem_nil t)) rfl (by decide)
     (fun g hg => absurd hg (List.not_mem_nil g))
     (fun gd h => RawResult.noConfusion h)).1⟩

/-- C8: during backfill of a missing entity whose group is uncached, a
declared category id absent from the imported category rows is not fatal:
the group row is still created with a null category reference, one warning
is logged, and the entity row is still created referencing that group. -/
theorem c8_missing_category_nonfatal (env : BackfillEnv) (db : SdeDb) (tid : Nat)
    (td : TypeData) (gd : GroupData) (cid : Nat)
    (hfresh : ∀ t ∈ db.types, t.typeId ≠ tid)
    (htd : env.typeFetch tid = .ok td)
    (hgrp : ∀ g ∈ db.groups, g.groupId ≠ td.groupId)
    (hgf : env.groupFetch td.groupId = .ok gd)
    (hcat : gd.categoryId = some cid)
    (hmiss : cid ∉ db.categories) :
    (⟨td.groupId, gd.name, none, gd.published⟩ : EveGroupRow)
        ∈ (cache_missing_eve_types env db [tid]).1.groups
    ∧ mkTypeRow tid td td.groupId ∈ (cache_missing_eve_types env db [tid]).1.types
    ∧ (cache_missing_eve_types env db [tid]).2 = 1 := by
  have hfind : db.groups.find? (fun g => g.groupId == td.groupId) = none := by
    apply List.find?_eq_none.mpr
    intro g hg
    simpa using hgrp g hg
  rw [cache_missing_singleton env db tid hfresh,
      cacheOneType_eq_newgroup env (db, 0) tid td gd htd hfind hgf]
  refine ⟨?_, ?_, ?_⟩
  · simp [hcat, hmiss]
  · simp
  · simp [hcat, hmiss]

namespace Fixtures

open WaitlistEsi PilotViews

/-- The scenario payloads of C8: type 99999 declares group 400, whose
payload declares category 999, absent from the imported category rows. -/
def c8Td : TypeData := ⟨"Mystery Item", 400, none, true, none, none, none, none, none⟩

def c8Gd : GroupData := ⟨"New Group", some 999, true⟩

def c8Env : BackfillEnv := ⟨fun _ => .ok c8Td, fun _ => .ok c8Gd⟩

/-- A group payload with no declared category, for the idempotence run. -/
def c9Gd : GroupData := ⟨"Widgets", none, true⟩

/-- Backfill environment where both detail fetches succeed. -/
def c9Env : BackfillEnv := ⟨fun _ => .ok c7Td, fun _ => .ok c9Gd⟩

end Fixtures

/-- C8 witness: the concrete 99999 / group 400 / absent category 999
scenario — group row created with null category, one warning, entity row
created. -/
theorem c8_missing_category_witness :
    ((⟨400, "New Group", none, true⟩ : EveGroupRow)
        ∈ (cache_missing_eve_types Fixtures.c8Env Fixtures.emptySde [99999]).1.groups)
    ∧ mkTypeRow 99999 Fixtures.c8Td 400
        ∈ (cache_missing_eve_types Fixtures.c8Env Fixtures.emptySde [99999]).1.types
    ∧ (cache_missing_eve_types Fixtures.c8Env Fixtures.emptySde [99999]).2 = 1 :=
  c8_missing_category_nonfatal Fixtures.c8Env Fixtures.emptySde 99999 Fixtures.c8Td
    Fixtures.c8Gd 999 (fun t ht => absurd ht (List.not_mem_nil t)) rfl
    (fun g hg => absurd hg (List.not_mem_nil g)) rfl rfl (by decide)

/-- C9: the backfill is idempotent.  When a first run with the single
missing id X creates its row, the store holds exactly one row for X; a
second run with the same id set computes an empty missing set, attempts no
creation and changes nothing; in general a run over ids that are all cached
is a no-op returning the store unchanged. -/
theorem c9_backfill_idempotent (env : BackfillEnv) (db : SdeDb) (X : Nat)
    (hfresh : ∀ t ∈ db.types, t.typeId ≠ X)
    (hcreated : X ∈ (cache_missing_eve_types env db [X]).1.types.map (·.typeId)) :
    ((cache_missing_eve_types env db [X]).1.types.filter (fun t => t.typeId == X)).length = 1
    ∧ cache_missing_eve_types env (cache_missing_eve_types env db [X]).1 [X]
        = ((cache_missing_eve_types env db [X]).1, 0)
    ∧ (∀ (ids : List Nat) (db2 : SdeDb),
        (∀ i ∈ ids, i ∈ db2.types.map (·.typeId)) →
        cache_missing_eve_types env db2 ids = (db2, 0)) := by
  have hsing := cache_missing_singleton env db X hfresh
  refine ⟨?_, ?_, fun ids db2 hall => cache_missing_noop env db2 ids hall⟩
  · rw [hsing]
    rcases cacheOneType_types_cases env (db, 0) X with hcase | ⟨row, hrow, hcase⟩
    · exfalso
      rw [hsing, hcase] at hcreated
      obtain ⟨t, ht, hEq⟩ := List.mem_map.mp hcreated
      exact hfresh t ht hEq
    · rw [hcase, List.filter_append]
      have h1 : db.types.filter (fun t => t.typeId == X) = [] := by
        rw [List.filter_eq_nil_iff]
        intro t ht
        simpa using hfresh t ht
      rw [h1]
      simp [hrow]
  · apply cache_missing_noop
    intro i hi
    have hiX : i = X := List.mem_singleton.mp hi
    rw [hiX]
    exact hcreated

/-- C9 witness: concrete first run creates exactly one row for id 5; the
second run returns the store unchanged with no creation attempt. -/
theorem c9_backfill_idempotent_witness :
    ((cache_missing_eve_types Fixtures.c9Env Fixtures.emptySde [5]).1.types.filter
        (fun t => t.typeId == 5)).length = 1
    ∧ cache_missing_eve_types Fixtures.c9Env
        (cache_missing_eve_types Fixtures.c9Env Fixtures.emptySde [5]).1 [5]
        = ((cache_missing_eve_types Fixtures.c9Env Fixtures.emptySde [5]).1, 0) :=
  ⟨(c9_backfill_idempotent Fixtures.c9Env Fixtures.emptySde 5
      (fun t ht => absurd ht (List.not_mem_nil t)) (by decide)).1,
   (c9_backfill_idempotent Fixtures.c9Env Fixtures.emptySde 5
      (fun t ht => absurd ht (List.not_mem_nil t)) (by decide)).2.1⟩
